import Mathlib

/-!
# gorest-metrics: configuration, request validators, plugin and handlers

A shallow embedding of `config.go`, `models.go`, `plugin.go`, `resources.go`,
`routes.go` and of the table schema of `migrations/migrations.go`.

* Go `string` values are modelled by Lean `String` (a sequence of Unicode
  scalar values, i.e. a well-formed UTF-8 string); the Go builtin `len` on a
  string is its number of UTF-8 bytes.
* Go `int` values are modelled by `Int`; the code only compares them.
* A Go `error` is modelled by `Option String`: `none` is `nil`, `some msg` is an
  error whose `Error()` text is `msg`.
* Methods with a pointer receiver that mutate the receiver return the new
  receiver together with their result.
* The storage layer of the host is a record of operations that may each fail; a
  handler returns its HTTP response together with the storage calls it made.
-/

namespace Metrics

/-! ## config.go -/

/-- The `Config` struct.  `Database` is the storage handle (an interface value
in the source): `none` is the nil interface, `some h` a handle identified by `h`. -/
structure Config where
  Database : Option Nat
  AllowedTypes : List String
  MaxKeyLength : Int
  OnlyPositiveValues : Bool
  PaginationLimit : Int
  MaxPaginationLimit : Int
  deriving DecidableEq, Repr

/-- `DefaultConfig()`. -/
def DefaultConfig : Config :=
  { Database := none
    AllowedTypes := ["post"]
    MaxKeyLength := 255
    OnlyPositiveValues := false
    PaginationLimit := 50
    MaxPaginationLimit := 200 }

/-- The `for _, resourceType := range c.AllowedTypes` loop of `Config.Validate`.
`seen` holds the keys of the `seen` map (every stored value is `true`); the
result is the error returned from inside the loop, `none` when the loop runs to
its end. -/
def Config.validateTypesLoop : List String → List String → Option String
  | [], _ => none
  | resourceType :: rest, seen =>
    if resourceType = "" then
      some "allowed_types cannot contain empty strings"
    else if resourceType ∈ seen then
      some ("duplicate type in allowed_types: " ++ resourceType)
    else
      Config.validateTypesLoop rest (resourceType :: seen)

/-- `(c *Config) Validate()`. -/
def Config.Validate (c : Config) : Option String :=
  if c.AllowedTypes.length = 0 then
    some "allowed_types cannot be empty"
  else
    match Config.validateTypesLoop c.AllowedTypes [] with
    | some err => some err
    | none =>
      if c.MaxKeyLength < 1 ∨ c.MaxKeyLength > 255 then
        some "max_key_length must be between 1 and 255"
      else if c.PaginationLimit < 1 ∨ c.PaginationLimit > c.MaxPaginationLimit then
        some "pagination_limit must be between 1 and max_pagination_limit"
      else if c.MaxPaginationLimit < 1 ∨ c.MaxPaginationLimit > 1000 then
        some "max_pagination_limit must be between 1 and 1000"
      else
        none

/-- `(c *Config) IsAllowedType(resourceType)`. -/
def Config.IsAllowedType (c : Config) (resourceType : String) : Bool :=
  go c.AllowedTypes
where
  /-- The `for _, allowed := range c.AllowedTypes` loop. -/
  go : List String → Bool
    | [] => false
    | allowed :: rest => if allowed = resourceType then true else go rest

/-! ## models.go -/

/-- Go's builtin `len` on a string: the number of bytes of its UTF-8 encoding. -/
def len (s : String) : Nat := s.utf8ByteSize

/-- The bytes of a Go string. -/
def bytes (s : String) : List UInt8 := s.data.flatMap String.utf8EncodeChar

/-- Go's `unicode.IsSpace` (standard library): the Latin-1 spaces
`\t \n \v \f \r`, space, U+0085, U+00A0, and beyond Latin-1 the code points
with the `White_Space` property. -/
def unicode.IsSpace (r : Char) : Bool :=
  let n := r.toNat
  (0x09 ≤ n && n ≤ 0x0D) || n == 0x20 || n == 0x85 || n == 0xA0 || n == 0x1680 ||
  (0x2000 ≤ n && n ≤ 0x200A) || n == 0x2028 || n == 0x2029 || n == 0x202F ||
  n == 0x205F || n == 0x3000

/-- Go's `strings.TrimSpace` (standard library): the string with all leading and
trailing white space, as defined by `unicode.IsSpace`, removed (left first, then
right). -/
def strings.TrimSpace (s : String) : String :=
  ⟨(s.data.dropWhile unicode.IsSpace).rdropWhile unicode.IsSpace⟩

/-- Whether a byte is a hexadecimal digit: the entries of the `xvalues` table of
`github.com/google/uuid` that differ from 255. -/
def uuid.isHex (b : UInt8) : Bool :=
  let n := b.toNat
  (0x30 ≤ n && n ≤ 0x39) || (0x41 ≤ n && n ≤ 0x46) || (0x61 ≤ n && n ≤ 0x66)

/-- The `ok` result of `xtob` of `github.com/google/uuid`: both bytes are
hexadecimal digits.  An index past the end reads as a non-digit; `uuid.ParseOk`
only indexes inside the string. -/
def uuid.xtobOk (s : List UInt8) (i : Nat) : Bool :=
  uuid.isHex (s.getD i 0) && uuid.isHex (s.getD (i + 1) 0)

/-- The tail of `uuid.Parse` for the form `xxxxxxxx-xxxx-xxxx-xxxx-xxxxxxxxxxxx`:
the four dashes, then the sixteen pairs of hexadecimal digits.  Bytes past
index 35 are not examined. -/
def uuid.dashedOk (s : List UInt8) : Bool :=
  if s.getD 8 0 ≠ 0x2D ∨ s.getD 13 0 ≠ 0x2D ∨ s.getD 18 0 ≠ 0x2D ∨ s.getD 23 0 ≠ 0x2D then
    false
  else
    [0, 2, 4, 6, 9, 11, 14, 16, 19, 21, 24, 26, 28, 30, 32, 34].all (uuid.xtobOk s)

/-- ASCII lower-casing of a byte. -/
def uuid.lowerByte (b : UInt8) : UInt8 :=
  if 0x41 ≤ b.toNat ∧ b.toNat ≤ 0x5A then b + 0x20 else b

/-- Whether `uuid.Parse` of `github.com/google/uuid` (an external dependency)
returns a nil error.  It switches on the byte length: 36 (plain form), 45
(`urn:uuid:` prefix, compared case-insensitively, then the plain form), 38 (first
byte dropped, then the plain form: only the middle 36 bytes are examined), 32
(sixteen pairs of hexadecimal digits); every other length is an error. -/
def uuid.ParseOk (s : String) : Bool :=
  let b := bytes s
  if b.length = 36 then uuid.dashedOk b
  else if b.length = 36 + 9 then
    if (b.take 9).map uuid.lowerByte ≠ bytes "urn:uuid:" then false
    else uuid.dashedOk (b.drop 9)
  else if b.length = 36 + 2 then uuid.dashedOk (b.drop 1)
  else if b.length = 32 then
    (List.range 16).all fun i => uuid.xtobOk b (i * 2)
  else false

/-- The `CreateMetricRequest` struct. -/
structure CreateMetricRequest where
  Resource : String
  ResourceId : String
  Key : String
  Value : Int
  deriving DecidableEq, Repr

/-- The `UpdateMetricRequest` struct. -/
structure UpdateMetricRequest where
  Value : Int
  deriving DecidableEq, Repr

/-- `(r *CreateMetricRequest) Validate(config)`: the request after the call (the
method assigns the trimmed key to `r.Key` once the first two checks have passed)
and the returned error. -/
def CreateMetricRequest.Validate (r : CreateMetricRequest) (config : Config) :
    CreateMetricRequest × Option String :=
  if !config.IsAllowedType r.Resource then
    (r, some "resource type is not allowed")
  else if !uuid.ParseOk r.ResourceId then
    (r, some "resourceId must be a valid UUID")
  else
    let r := { r with Key := strings.TrimSpace r.Key }
    if r.Key = "" then
      (r, some "key cannot be empty")
    else if (len r.Key : Int) > config.MaxKeyLength then
      (r, some "key exceeds maximum length")
    else if config.OnlyPositiveValues && decide (r.Value < 0) then
      (r, some "value must be positive")
    else
      (r, none)

/-- `(r *UpdateMetricRequest) Validate(config)`. -/
def UpdateMetricRequest.Validate (r : UpdateMetricRequest) (config : Config) : Option String :=
  if config.OnlyPositiveValues && decide (r.Value < 0) then
    some "value must be positive"
  else
    none

/-! ## plugin.go -/

/-- A dynamically typed value (`interface{}`) held by the configuration map
given to `Initialize`, classified by the type assertions the method makes. -/
inductive Value where
  /-- a non-nil value implementing `database.Database`, identified by a handle -/
  | database (h : Nat)
  /-- a `[]interface{}` -/
  | slice (xs : List Value)
  /-- a `string` -/
  | str (s : String)
  /-- an `int` -/
  | int (n : Int)
  /-- a `bool` -/
  | bool (b : Bool)
  /-- a value of any other dynamic type (`float64`, `[]string`, `nil`, ...) -/
  | other (typeName : String)

/-- The configuration map `map[string]interface{}`, as an association list read
with `List.lookup`. -/
abbrev ConfigMap := List (String × Value)

/-- The `MetricsPlugin` struct. -/
structure MetricsPlugin where
  config : Config
  db : Option Nat
  deriving DecidableEq, Repr

/-- The zero value `&MetricsPlugin{}` built by `NewPlugin`. -/
def NewPlugin : MetricsPlugin :=
  { config :=
      { Database := none, AllowedTypes := [], MaxKeyLength := 0, OnlyPositiveValues := false,
        PaginationLimit := 0, MaxPaginationLimit := 0 }
    db := none }

/-- The loop `for _, t := range allowedTypes` of `Initialize`: every element
that is a `string` is appended to `types`. -/
def MetricsPlugin.collectTypes : List Value → List String → List String
  | [], types => types
  | Value.str str :: rest, types => MetricsPlugin.collectTypes rest (types ++ [str])
  | _ :: rest, types => MetricsPlugin.collectTypes rest types

/-- `(p *MetricsPlugin) Initialize(config)`: the plugin after the call and the
returned error. -/
def MetricsPlugin.Initialize (p : MetricsPlugin) (config : ConfigMap) :
    MetricsPlugin × Option String :=
  let p := { p with config := DefaultConfig }
  let p :=
    match config.lookup "database" with
    | some (Value.database db) =>
      { p with db := some db, config := { p.config with Database := some db } }
    | _ => p
  let p :=
    match config.lookup "allowed_types" with
    | some (Value.slice allowedTypes) =>
      let types := MetricsPlugin.collectTypes allowedTypes []
      if types.length > 0 then { p with config := { p.config with AllowedTypes := types } }
      else p
    | _ => p
  let p :=
    match config.lookup "max_key_length" with
    | some (Value.int maxKeyLength) =>
      { p with config := { p.config with MaxKeyLength := maxKeyLength } }
    | _ => p
  let p :=
    match config.lookup "only_positive_values" with
    | some (Value.bool onlyPositiveValues) =>
      { p with config := { p.config with OnlyPositiveValues := onlyPositiveValues } }
    | _ => p
  let p :=
    match config.lookup "pagination_limit" with
    | some (Value.int paginationLimit) =>
      { p with config := { p.config with PaginationLimit := paginationLimit } }
    | _ => p
  let p :=
    match config.lookup "max_pagination_limit" with
    | some (Value.int maxPaginationLimit) =>
      { p with config := { p.config with MaxPaginationLimit := maxPaginationLimit } }
    | _ => p
  (p, p.config.Validate)

/-! ## resources.go, routes.go: route registration -/

/-- The `MetricResource` struct; the `CRUD` field is built from `DB` alone and is
not a field here: the handlers below take the storage operations as a
parameter. -/
structure MetricResource where
  DB : Nat
  Config : Config
  PaginationLimit : Int
  PaginationMaxLimit : Int
  deriving DecidableEq, Repr

/-- One route registered on the application: HTTP method, path, the handler
method of `MetricResource` and the resource it is bound to. -/
structure Route where
  method : String
  path : String
  handler : String
  res : MetricResource
  deriving DecidableEq, Repr

/-- `RegisterMetricRoutes(app, db, config)`; the application is the list of the
routes registered so far. -/
def RegisterMetricRoutes (app : List Route) (db : Nat) (config : Config) : List Route :=
  let res : MetricResource :=
    { DB := db
      Config := config
      PaginationLimit := config.PaginationLimit
      PaginationMaxLimit := config.MaxPaginationLimit }
  app ++
    [ ⟨"GET", "/metrics", "List", res⟩,
      ⟨"GET", "/metrics/:id", "Get", res⟩,
      ⟨"POST", "/metrics", "Create", res⟩,
      ⟨"PUT", "/metrics/:id", "Update", res⟩,
      ⟨"DELETE", "/metrics/:id", "Delete", res⟩ ]

/-- `RegisterRoutes(app, db, config)`. -/
def RegisterRoutes (app : List Route) (db : Nat) (config : Config) : List Route :=
  RegisterMetricRoutes app db config

/-- `(p *MetricsPlugin) SetupEndpoints(app)`: the application after the call and
the returned error. -/
def MetricsPlugin.SetupEndpoints (p : MetricsPlugin) (app : List Route) :
    List Route × Option String :=
  match p.db with
  | none => (app, none)
  | some db => (RegisterRoutes app db p.config, none)

/-! ## models.go: the persisted record -/

/-- The `Metric` struct.  `CreatedAt` is a `*time.Time`: `none` is nil, `some t`
a timestamp. -/
structure Metric where
  Id : String
  Resource : String
  ResourceId : String
  Key : String
  Value : Int
  CreatedAt : Option Nat
  deriving DecidableEq, Repr

/-- The struct tags of one field of `Metric`: the Go field name, the name in the
`json` tag and the column in the `db` tag. -/
structure FieldTag where
  goName : String
  json : String
  db : String
  deriving DecidableEq, Repr

/-- The tags written on the fields of `Metric` in `models.go`, in declaration
order. -/
def Metric.fieldTags : List FieldTag :=
  [ ⟨"Id", "id", "id"⟩,
    ⟨"Resource", "resource", "resource"⟩,
    ⟨"ResourceId", "resourceId", "resource_id"⟩,
    ⟨"Key", "key", "name"⟩,
    ⟨"Value", "value", "value"⟩,
    ⟨"CreatedAt", "createdAt", "created_at"⟩ ]

/-- `(Metric) TableName()`. -/
def Metric.TableName : String := "metrics"

/-! ## migrations/migrations.go: the table schema -/

/-- The table created by the `create_metrics_table` migration. -/
def migrations.tableName : String := "metrics"

/-- The columns declared by the Postgres `CREATE TABLE` statement of
`GetMigrations`, in order. -/
def migrations.postgresColumns : List String :=
  ["id", "resource", "resource_id", "key", "value", "created_at"]

/-- The columns declared by the MySQL `CREATE TABLE` statement of
`GetMigrations`, in order. -/
def migrations.mysqlColumns : List String :=
  ["id", "resource", "resource_id", "key", "value", "created_at"]

/-- The columns declared by the SQLite `CREATE TABLE` statement of
`GetMigrations`, in order. -/
def migrations.sqliteColumns : List String :=
  ["id", "resource", "resource_id", "key", "value", "created_at"]

/-! ## resources.go: filters and handlers -/

/-- `MaxFilterValuesPerField`. -/
def MaxFilterValuesPerField : Nat := 50

/-- The `fieldMapping` table built by `List`: JSON field name to storage column. -/
def fieldMapping : List (String × String) :=
  [ ("id", "id"),
    ("resource", "resource"),
    ("resourceId", "resource_id"),
    ("key", "key"),
    ("value", "value"),
    ("createdAt", "created_at") ]

/-- One entry of `filters.Filters` (host package `filter`): the two fields the
handlers read. -/
structure Filter where
  Field : String
  Values : List String
  deriving DecidableEq, Repr

/-- The host's `filter.FilterSet`, through its `Filters` slice. -/
structure FilterSet where
  Filters : List Filter
  deriving DecidableEq, Repr

/-- Go's `%v` rendering of a `[]string`: the elements separated by blanks,
between square brackets. -/
def fmt.sliceV (xs : List String) : String :=
  "[" ++ String.intercalate " " xs ++ "]"

/-- Go's `%d` rendering of a non-negative `int`. -/
def fmt.intD (n : Nat) : String := toString n

/-- The inner loop `for _, val := range f.Values` of `validateResourceFilter`. -/
def MetricResource.validateResourceValues (r : MetricResource) : List String → Option String
  | [] => none
  | val :: rest =>
    if !r.Config.IsAllowedType val then
      some ("invalid resource type '" ++ val ++ "' (allowed: " ++
        fmt.sliceV r.Config.AllowedTypes ++ ")")
    else
      MetricResource.validateResourceValues r rest

/-- The outer loop `for _, f := range filters.Filters` of
`validateResourceFilter`. -/
def MetricResource.validateResourceFilters (r : MetricResource) : List Filter → Option String
  | [] => none
  | f :: rest =>
    if f.Field = "resource" then
      match MetricResource.validateResourceValues r f.Values with
      | some err => some err
      | none => MetricResource.validateResourceFilters r rest
    else
      MetricResource.validateResourceFilters r rest

/-- `(r *MetricResource) validateResourceFilter(filters)`. -/
def MetricResource.validateResourceFilter (r : MetricResource) (filters : FilterSet) :
    Option String :=
  MetricResource.validateResourceFilters r filters.Filters

/-- The loop of `validateFilterLimits`. -/
def MetricResource.validateFilterLimitsLoop : List Filter → Option String
  | [] => none
  | f :: rest =>
    if f.Values.length > MaxFilterValuesPerField then
      some ("too many filter values for field '" ++ f.Field ++ "' (max: " ++
        fmt.intD MaxFilterValuesPerField ++ ", got: " ++ fmt.intD f.Values.length ++ ")")
    else
      MetricResource.validateFilterLimitsLoop rest

/-- `(r *MetricResource) validateFilterLimits(filters)`. -/
def MetricResource.validateFilterLimits (_r : MetricResource) (filters : FilterSet) :
    Option String :=
  MetricResource.validateFilterLimitsLoop filters.Filters

/-- One `crud.OrderByClause`. -/
structure OrderByClause where
  Column : String
  Direction : String
  deriving DecidableEq, Repr

/-- The host's `crud.PaginationOptions` as filled in by `List`; `Conditions`, the
value of `filters.Conditions()`, is represented by the filter set it is computed
from. -/
structure PaginationOptions where
  Limit : Int
  Offset : Int
  IncludeCount : Bool
  Conditions : FilterSet
  OrderBy : List OrderByClause
  deriving DecidableEq, Repr

/-- The result of `GetAllPaginated`: the fields `List` reads. -/
structure PaginatedResult where
  Items : List Metric
  Total : Int
  deriving DecidableEq, Repr

/-- The storage operations of the host's generic `crud.CRUD[Metric]`, each of
which may fail: an operation returning an error yields `some msg` (or
`Except.error msg`), where `msg` is the text of the error. -/
structure CRUD where
  Create : Metric → Option String
  GetByID : String → Except String Metric
  Update : String → Metric → Option String
  Delete : String → Option String
  GetAllPaginated : PaginationOptions → Except String PaginatedResult

/-- A call made to the storage layer by a handler, with its arguments. -/
inductive StorageCall where
  | create (item : Metric)
  | getByID (id : String)
  | update (id : String) (item : Metric)
  | delete (id : String)
  | getAllPaginated (opts : PaginationOptions)
  deriving DecidableEq, Repr

/-- The storage calls made by a handler, in order. -/
abbrev StorageCalls := List StorageCall

/-- The body of an HTTP response written by a handler. -/
inductive Body where
  /-- a JSON object with the single key `error` -/
  | error (msg : String)
  /-- a single record, sent through `response.SendFormatted` -/
  | item (m : Metric)
  /-- a collection envelope, sent through `pagination.SendHydraCollection` with
  the items, total, limit, page and default limit -/
  | collection (items : List Metric) (total limit page defaultLimit : Int)
  /-- no body -/
  | empty
  deriving DecidableEq, Repr

/-- An HTTP response: status code and body. -/
structure Response where
  status : Nat
  body : Body
  deriving DecidableEq, Repr

/-- What `List` obtains from the request through the host's parsers: the values
of `pagination.ParseIntQuery` for `limit` and `page`, the `count` query value
(with its default `true`), the outcome of `filters.ParseFromQuery` (the filter
set, or the error text) and the outcome of `ordering.ParseFromQuery` (the order
clauses, or the error text). -/
structure ListRequest where
  limit : Int
  page : Int
  count : String
  filters : Except String FilterSet
  ordering : Except String (List OrderByClause)

/-- `(r *MetricResource) List(c)`: the response and the storage calls made, in
order. -/
def MetricResource.List (r : MetricResource) (crud : CRUD) (c : ListRequest) :
    Response × StorageCalls :=
  let limit := c.limit
  let page := if c.page < 1 then 1 else c.page
  let offset := (page - 1) * limit
  let includeCount := c.count != "false"
  match c.filters with
  | Except.error err => (⟨400, Body.error err⟩, [])
  | Except.ok filters =>
    match r.validateResourceFilter filters with
    | some err => (⟨400, Body.error err⟩, [])
    | none =>
      match r.validateFilterLimits filters with
      | some err => (⟨400, Body.error err⟩, [])
      | none =>
        match c.ordering with
        | Except.error err => (⟨400, Body.error err⟩, [])
        | Except.ok orderByClauses =>
          let opts : PaginationOptions :=
            { Limit := limit
              Offset := offset
              IncludeCount := includeCount
              Conditions := filters
              OrderBy := orderByClauses }
          match crud.GetAllPaginated opts with
          | Except.error err =>
            (⟨500, Body.error err⟩, [StorageCall.getAllPaginated opts])
          | Except.ok result =>
            (⟨200, Body.collection result.Items result.Total limit page r.PaginationLimit⟩,
              [StorageCall.getAllPaginated opts])

/-- `(r *MetricResource) Create(c)`: the response and the storage calls made, in
order.  `body` is the outcome of `c.BodyParser` (`none` when it fails) and
`newId` the string of the fresh `uuid.New()`. -/
def MetricResource.Create (r : MetricResource) (crud : CRUD)
    (body : Option CreateMetricRequest) (newId : String) : Response × StorageCalls :=
  match body with
  | none => (⟨400, Body.error "Invalid request body"⟩, [])
  | some req =>
    match req.Validate r.Config with
    | (_, some err) => (⟨400, Body.error err⟩, [])
    | (req, none) =>
      let item : Metric :=
        { Id := newId
          Resource := req.Resource
          ResourceId := req.ResourceId
          Key := req.Key
          Value := req.Value
          CreatedAt := none }
      match crud.Create item with
      | some err => (⟨500, Body.error err⟩, [StorageCall.create item])
      | none =>
        match crud.GetByID item.Id with
        | Except.error _ =>
          (⟨201, Body.item item⟩, [StorageCall.create item, StorageCall.getByID item.Id])
        | Except.ok created =>
          (⟨201, Body.item created⟩, [StorageCall.create item, StorageCall.getByID item.Id])

/-- `(r *MetricResource) Update(c)`: the response and the storage calls made, in
order.  `id` is the path parameter and `body` the outcome of `c.BodyParser`
(`none` when it fails). -/
def MetricResource.Update (r : MetricResource) (crud : CRUD) (id : String)
    (body : Option UpdateMetricRequest) : Response × StorageCalls :=
  match body with
  | none => (⟨400, Body.error "Invalid request body"⟩, [])
  | some req =>
    match req.Validate r.Config with
    | some err => (⟨400, Body.error err⟩, [])
    | none =>
      match crud.GetByID id with
      | Except.error _ => (⟨404, Body.error "Not found"⟩, [StorageCall.getByID id])
      | Except.ok existing =>
        let existing := { existing with Value := req.Value }
        match crud.Update id existing with
        | some err =>
          (⟨500, Body.error err⟩, [StorageCall.getByID id, StorageCall.update id existing])
        | none =>
          (⟨200, Body.item existing⟩, [StorageCall.getByID id, StorageCall.update id existing])

/-! ## Predicates used in the statements -/

/-- The entries of `allowedTypes` pass the first three checks of
`Config.Validate`: non-empty, no empty string, no repeated entry. -/
def TypesOk (c : Config) : Prop :=
  c.AllowedTypes ≠ [] ∧ "" ∉ c.AllowedTypes ∧ c.AllowedTypes.Nodup

/-- The string held by a dynamically typed value, if it is a `string`. -/
def Value.asString : Value → Option String
  | Value.str s => some s
  | _ => none

/-! ## Helper lemmas -/

theorem isAllowedType_go_iff (t : String) (l : List String) :
    Config.IsAllowedType.go t l = true ↔ t ∈ l := by
  induction l with
  | nil => simp [Config.IsAllowedType.go]
  | cons a rest ih =>
    by_cases h : a = t
    · simp [Config.IsAllowedType.go, h]
    · have h2 : ¬ t = a := fun e => h e.symm
      simp [Config.IsAllowedType.go, h, h2, ih]

theorem isAllowedType_iff_mem (c : Config) (t : String) :
    c.IsAllowedType t = true ↔ t ∈ c.AllowedTypes := by
  unfold Config.IsAllowedType
  exact isAllowedType_go_iff t c.AllowedTypes

theorem isAllowedType_eq_false_iff (c : Config) (t : String) :
    c.IsAllowedType t = false ↔ t ∉ c.AllowedTypes := by
  rw [← isAllowedType_iff_mem]; simp

/-- The loop of `Config.Validate` runs to its end exactly on a list without an
empty string, without a repeated entry and without an entry already seen. -/
theorem validateTypesLoop_eq_none_iff (l seen : List String) :
    Config.validateTypesLoop l seen = none ↔
      "" ∉ l ∧ l.Nodup ∧ ∀ x ∈ l, x ∉ seen := by
  induction l generalizing seen with
  | nil => simp [Config.validateTypesLoop]
  | cons a rest ih =>
    unfold Config.validateTypesLoop
    by_cases h1 : a = ""
    · simp [h1]
    · by_cases h2 : a ∈ seen
      · simp [h1, h2]
      · have h1b : ¬ "" = a := fun e => h1 e.symm
        simp only [h1, h2, if_false, ih, List.mem_cons, List.nodup_cons, not_or]
        constructor
        · rintro ⟨h3, h4, h5⟩
          refine ⟨⟨h1b, h3⟩, ⟨?_, h4⟩, ?_⟩
          · intro ha; exact (h5 a ha).1 rfl
          · intro x hx
            rcases hx with rfl | hx
            · exact h2
            · exact (h5 x hx).2
        · rintro ⟨⟨_, h3⟩, ⟨h4, h5⟩, h6⟩
          refine ⟨h3, h5, ?_⟩
          intro x hx
          refine ⟨?_, h6 x (Or.inr hx)⟩
          rintro rfl; exact h4 hx

/-- A clean beginning of the list is skipped by the loop of `Config.Validate`,
its entries joining `seen`. -/
theorem validateTypesLoop_append (pre rest seen : List String)
    (h1 : "" ∉ pre) (h2 : pre.Nodup) (h3 : ∀ x ∈ pre, x ∉ seen) :
    Config.validateTypesLoop (pre ++ rest) seen
      = Config.validateTypesLoop rest (pre.reverse ++ seen) := by
  induction pre generalizing seen with
  | nil => simp
  | cons a pre ih =>
    simp only [List.mem_cons, not_or] at h1
    have ha : ¬ a = "" := fun e => h1.1 e.symm
    have hs : a ∉ seen := h3 a (List.mem_cons_self _ _)
    rw [List.nodup_cons] at h2
    rw [List.cons_append, Config.validateTypesLoop]
    simp only [ha, hs, if_false]
    rw [ih (a :: seen) h1.2 h2.2]
    · simp
    · intro x hx
      simp only [List.mem_cons, not_or]
      refine ⟨?_, h3 x (List.mem_cons_of_mem _ hx)⟩
      rintro rfl; exact h2.1 hx

/-- Once the checks on `allowedTypes` pass, `Config.Validate` is decided by the
three numeric checks. -/
theorem validate_of_typesOk (c : Config) (h : TypesOk c) :
    c.Validate =
      if c.MaxKeyLength < 1 ∨ c.MaxKeyLength > 255 then
        some "max_key_length must be between 1 and 255"
      else if c.PaginationLimit < 1 ∨ c.PaginationLimit > c.MaxPaginationLimit then
        some "pagination_limit must be between 1 and max_pagination_limit"
      else if c.MaxPaginationLimit < 1 ∨ c.MaxPaginationLimit > 1000 then
        some "max_pagination_limit must be between 1 and 1000"
      else none := by
  obtain ⟨h1, h2, h3⟩ := h
  have hl : Config.validateTypesLoop c.AllowedTypes [] = none :=
    (validateTypesLoop_eq_none_iff _ _).2 ⟨h2, h3, by simp⟩
  have hlen : ¬ c.AllowedTypes.length = 0 := by
    intro e; exact h1 (List.length_eq_zero.mp e)
  unfold Config.Validate
  rw [if_neg hlen, hl]

/-- If a check on `allowedTypes` fails, `Config.Validate` returns an error. -/
theorem validate_ne_none_of_not_typesOk (c : Config) (h : ¬ TypesOk c) :
    c.Validate ≠ none := by
  unfold Config.Validate
  by_cases hlen : c.AllowedTypes.length = 0
  · simp [hlen]
  · rw [if_neg hlen]
    cases hl : Config.validateTypesLoop c.AllowedTypes [] with
    | some e => simp
    | none =>
      exfalso
      apply h
      have := (validateTypesLoop_eq_none_iff _ _).1 hl
      exact ⟨fun e => hlen (by simp [e]), this.1, this.2.1⟩

/-- Claim C2. `Config.Validate` returns no error if and only if `allowedTypes` is
non-empty, holds no empty string and no duplicate entry, `1 ≤ maxKeyLength ≤ 255`,
`1 ≤ paginationLimit ≤ maxPaginationLimit` and `1 ≤ maxPaginationLimit ≤ 1000`. -/
theorem config_validate_eq_none_iff (c : Config) :
    c.Validate = none ↔
      (c.AllowedTypes ≠ [] ∧ "" ∉ c.AllowedTypes ∧ c.AllowedTypes.Nodup ∧
        (1 ≤ c.MaxKeyLength ∧ c.MaxKeyLength ≤ 255) ∧
        (1 ≤ c.PaginationLimit ∧ c.PaginationLimit ≤ c.MaxPaginationLimit) ∧
        (1 ≤ c.MaxPaginationLimit ∧ c.MaxPaginationLimit ≤ 1000)) := by
  by_cases ht : TypesOk c
  · rw [validate_of_typesOk c ht]
    obtain ⟨h1, h2, h3⟩ := ht
    constructor
    · intro h
      split_ifs at h with a b d
      refine ⟨h1, h2, h3, ?_, ?_, ?_⟩ <;> constructor <;> omega
    · rintro ⟨_, _, _, ⟨a1, a2⟩, ⟨b1, b2⟩, ⟨d1, d2⟩⟩
      rw [if_neg (by omega), if_neg (by omega), if_neg (by omega)]
  · constructor
    · intro h; exact absurd h (validate_ne_none_of_not_typesOk c ht)
    · rintro ⟨h1, h2, h3, _⟩; exact absurd ⟨h1, h2, h3⟩ ht

/-- The loop of `Config.Validate` stops at the first entry that is empty or
repeats an earlier one. -/
theorem validate_types_first_offender (c : Config) (pre post : List String) (t : String)
    (hc : c.AllowedTypes = pre ++ t :: post) (h1 : "" ∉ pre) (h2 : pre.Nodup)
    (h3 : t = "" ∨ t ∈ pre) :
    c.Validate =
      if t = "" then some "allowed_types cannot contain empty strings"
      else some ("duplicate type in allowed_types: " ++ t) := by
  have hlen : ¬ c.AllowedTypes.length = 0 := by simp [hc]
  unfold Config.Validate
  rw [if_neg hlen, hc, validateTypesLoop_append pre (t :: post) [] h1 h2 (by simp)]
  unfold Config.validateTypesLoop
  by_cases ht : t = ""
  · simp [ht]
  · have hm : t ∈ pre := h3.resolve_left ht
    simp [ht, hm]

/-- Claim C3, counterexample. With `allowedTypes = ["post", "post", ""]` the list is
non-empty and contains an empty string, yet `Config.Validate` reports the
duplicate `post`, not the empty string: the two checks share one loop and the
repeated entry comes first. -/
theorem config_validate_order_counterexample :
    "" ∈ ({ DefaultConfig with AllowedTypes := ["post", "post", ""] } : Config).AllowedTypes ∧
    ({ DefaultConfig with AllowedTypes := ["post", "post", ""] } : Config).Validate
      = some "duplicate type in allowed_types: post" ∧
    ({ DefaultConfig with AllowedTypes := ["post", "post", ""] } : Config).Validate
      ≠ some "allowed_types cannot contain empty strings" := by
  decide

/-- Claim C3, amended. `Config.Validate` reports only the first violated check:
an empty `allowedTypes`; then, in one pass over `allowedTypes` in iteration
order, the first entry that is the empty string (empty-string message) or that
repeats an earlier entry (duplicate message naming that entry); then
`maxKeyLength` outside `[1,255]`; then `paginationLimit` outside
`[1,maxPaginationLimit]`; then `maxPaginationLimit` outside `[1,1000]`.  In
particular an empty string preceded by no repeated entry yields the
empty-string message, and a Config passing the earlier checks with
`maxPaginationLimit < paginationLimit` yields the pagination-limit message. -/
theorem config_validate_first_violation (c : Config) :
    (c.AllowedTypes = [] → c.Validate = some "allowed_types cannot be empty") ∧
    (∀ pre post : List String, c.AllowedTypes = pre ++ "" :: post → "" ∉ pre → pre.Nodup →
      c.Validate = some "allowed_types cannot contain empty strings") ∧
    (∀ (pre post : List String) (t : String), c.AllowedTypes = pre ++ t :: post →
      "" ∉ pre → pre.Nodup → t ≠ "" → t ∈ pre →
      c.Validate = some ("duplicate type in allowed_types: " ++ t)) ∧
    (c.AllowedTypes ≠ [] → "" ∉ c.AllowedTypes → c.AllowedTypes.Nodup →
      (c.MaxKeyLength < 1 ∨ 255 < c.MaxKeyLength) →
      c.Validate = some "max_key_length must be between 1 and 255") ∧
    (c.AllowedTypes ≠ [] → "" ∉ c.AllowedTypes → c.AllowedTypes.Nodup →
      (1 ≤ c.MaxKeyLength ∧ c.MaxKeyLength ≤ 255) →
      (c.PaginationLimit < 1 ∨ c.MaxPaginationLimit < c.PaginationLimit) →
      c.Validate = some "pagination_limit must be between 1 and max_pagination_limit") ∧
    (c.AllowedTypes ≠ [] → "" ∉ c.AllowedTypes → c.AllowedTypes.Nodup →
      (1 ≤ c.MaxKeyLength ∧ c.MaxKeyLength ≤ 255) →
      (1 ≤ c.PaginationLimit ∧ c.PaginationLimit ≤ c.MaxPaginationLimit) →
      (c.MaxPaginationLimit < 1 ∨ 1000 < c.MaxPaginationLimit) →
      c.Validate = some "max_pagination_limit must be between 1 and 1000") := by
  refine ⟨?_, ?_, ?_, ?_, ?_, ?_⟩
  · intro h
    simp [Config.Validate, h]
  · intro pre post hc h1 h2
    rw [validate_types_first_offender c pre post "" hc h1 h2 (Or.inl rfl)]
    simp
  · intro pre post t hc h1 h2 ht hm
    rw [validate_types_first_offender c pre post t hc h1 h2 (Or.inr hm), if_neg ht]
  · intro h1 h2 h3 hk
    rw [validate_of_typesOk c ⟨h1, h2, h3⟩, if_pos (by omega)]
  · intro h1 h2 h3 hk hp
    rw [validate_of_typesOk c ⟨h1, h2, h3⟩, if_neg (by omega), if_pos (by omega)]
  · intro h1 h2 h3 hk hp hm
    rw [validate_of_typesOk c ⟨h1, h2, h3⟩, if_neg (by omega), if_neg (by omega),
      if_pos (by omega)]

/-- Claim C3, witness. Each branch of `config_validate_first_violation` at a
concrete Config. -/
theorem config_validate_first_violation_witness :
    ({ DefaultConfig with AllowedTypes := [] } : Config).Validate
      = some "allowed_types cannot be empty" ∧
    ({ DefaultConfig with AllowedTypes := ["post", ""] } : Config).Validate
      = some "allowed_types cannot contain empty strings" ∧
    ({ DefaultConfig with AllowedTypes := ["post", "user", "post"] } : Config).Validate
      = some ("duplicate type in allowed_types: " ++ "post") ∧
    ({ DefaultConfig with MaxKeyLength := 256 } : Config).Validate
      = some "max_key_length must be between 1 and 255" ∧
    ({ DefaultConfig with PaginationLimit := 201 } : Config).Validate
      = some "pagination_limit must be between 1 and max_pagination_limit" ∧
    ({ DefaultConfig with MaxPaginationLimit := 1001 } : Config).Validate
      = some "max_pagination_limit must be between 1 and 1000" :=
  ⟨(config_validate_first_violation _).1 rfl,
   (config_validate_first_violation _).2.1 ["post"] [] rfl (by decide) (by decide),
   (config_validate_first_violation _).2.2.1 ["post", "user"] [] "post" rfl
     (by decide) (by decide) (by decide) (by decide),
   (config_validate_first_violation _).2.2.2.1 (by decide) (by decide) (by decide)
     (by decide),
   (config_validate_first_violation _).2.2.2.2.1 (by decide) (by decide) (by decide)
     (by decide) (by decide),
   (config_validate_first_violation _).2.2.2.2.2 (by decide) (by decide) (by decide)
     (by decide) (by decide) (by decide)⟩

/-- Claim C4, counterexample. For the Config whose `allowedTypes` is `[""]` the
empty string does match. -/
theorem isAllowedType_empty_counterexample :
    ({ DefaultConfig with AllowedTypes := [""] } : Config).IsAllowedType "" = true := by
  decide

/-- Claim C4, amended. `c.IsAllowedType t` is true if and only if `t` is exactly
equal (case-sensitively) to some entry of `c.allowedTypes`; with
`allowedTypes = ["post"]`, `IsAllowedType "Post"` is false; the empty string
matches only when it is itself an entry of `allowedTypes`, hence never for a
Config that passes `Validate`. -/
theorem isAllowedType_iff_exact_member (c : Config) (t : String) :
    (c.IsAllowedType t = true ↔ ∃ a ∈ c.AllowedTypes, a = t) ∧
    (c.AllowedTypes = ["post"] → c.IsAllowedType "Post" = false) ∧
    ("" ∉ c.AllowedTypes → c.IsAllowedType "" = false) ∧
    (c.Validate = none → c.IsAllowedType "" = false) := by
  refine ⟨?_, ?_, ?_, ?_⟩
  · rw [isAllowedType_iff_mem]; simp
  · intro h
    rw [isAllowedType_eq_false_iff, h]
    decide
  · intro h
    exact (isAllowedType_eq_false_iff c "").2 h
  · intro h
    refine (isAllowedType_eq_false_iff c "").2 fun hm => ?_
    exact validate_ne_none_of_not_typesOk c (fun ht => ht.2.1 hm) h

/-- Claim C4, witness. The amended statement at the default Config. -/
theorem isAllowedType_iff_exact_member_witness :
    DefaultConfig.IsAllowedType "Post" = false ∧ DefaultConfig.IsAllowedType "" = false ∧
    DefaultConfig.IsAllowedType "" = false :=
  ⟨(isAllowedType_iff_exact_member DefaultConfig "post").2.1 rfl,
   (isAllowedType_iff_exact_member DefaultConfig "post").2.2.1 (by decide),
   (isAllowedType_iff_exact_member DefaultConfig "post").2.2.2 (by decide)⟩

/-- Result of `CreateMetricRequest.Validate` once the resource is allowed and the
resourceId parses: the three remaining checks on the trimmed key and the value. -/
theorem createValidate_after_uuid (r : CreateMetricRequest) (config : Config)
    (h1 : r.Resource ∈ config.AllowedTypes) (h2 : uuid.ParseOk r.ResourceId = true) :
    r.Validate config =
      if strings.TrimSpace r.Key = "" then
        ({ r with Key := strings.TrimSpace r.Key }, some "key cannot be empty")
      else if config.MaxKeyLength < (len (strings.TrimSpace r.Key) : Int) then
        ({ r with Key := strings.TrimSpace r.Key }, some "key exceeds maximum length")
      else if config.OnlyPositiveValues = true ∧ r.Value < 0 then
        ({ r with Key := strings.TrimSpace r.Key }, some "value must be positive")
      else ({ r with Key := strings.TrimSpace r.Key }, none) := by
  have h1b : config.IsAllowedType r.Resource = true := (isAllowedType_iff_mem _ _).2 h1
  unfold CreateMetricRequest.Validate
  simp only [h1b, h2, Bool.not_true, Bool.false_eq_true, if_false, gt_iff_lt,
    Bool.and_eq_true, decide_eq_true_eq]

/-- The first two checks of `CreateMetricRequest.Validate`. -/
theorem createValidate_early_checks (r : CreateMetricRequest) (config : Config) :
    (r.Resource ∉ config.AllowedTypes →
      (r.Validate config).2 = some "resource type is not allowed") ∧
    (r.Resource ∈ config.AllowedTypes → uuid.ParseOk r.ResourceId = false →
      (r.Validate config).2 = some "resourceId must be a valid UUID") := by
  constructor
  · intro h
    have hb : config.IsAllowedType r.Resource = false := (isAllowedType_eq_false_iff _ _).2 h
    simp [CreateMetricRequest.Validate, hb]
  · intro h1 h2
    have hb : config.IsAllowedType r.Resource = true := (isAllowedType_iff_mem _ _).2 h1
    simp [CreateMetricRequest.Validate, hb, h2]

/-- Claim C1. `CreateMetricRequest.Validate` returns the error of the first failing
check, in the order: resource not in `allowedTypes`; resourceId does not parse as
a UUID; key empty after trimming; trimmed key longer than `maxKeyLength`;
`onlyPositiveValues` set and `value < 0`; and no error when none fails.  Value 0
passes, and without `onlyPositiveValues` every value passes. -/
theorem createValidate_first_failing_check (r : CreateMetricRequest) (config : Config) :
    (r.Resource ∉ config.AllowedTypes →
      (r.Validate config).2 = some "resource type is not allowed") ∧
    (r.Resource ∈ config.AllowedTypes → uuid.ParseOk r.ResourceId = false →
      (r.Validate config).2 = some "resourceId must be a valid UUID") ∧
    (r.Resource ∈ config.AllowedTypes → uuid.ParseOk r.ResourceId = true →
      strings.TrimSpace r.Key = "" →
      (r.Validate config).2 = some "key cannot be empty") ∧
    (r.Resource ∈ config.AllowedTypes → uuid.ParseOk r.ResourceId = true →
      strings.TrimSpace r.Key ≠ "" →
      config.MaxKeyLength < (len (strings.TrimSpace r.Key) : Int) →
      (r.Validate config).2 = some "key exceeds maximum length") ∧
    (r.Resource ∈ config.AllowedTypes → uuid.ParseOk r.ResourceId = true →
      strings.TrimSpace r.Key ≠ "" →
      (len (strings.TrimSpace r.Key) : Int) ≤ config.MaxKeyLength →
      config.OnlyPositiveValues = true → r.Value < 0 →
      (r.Validate config).2 = some "value must be positive") ∧
    (r.Resource ∈ config.AllowedTypes → uuid.ParseOk r.ResourceId = true →
      strings.TrimSpace r.Key ≠ "" →
      (len (strings.TrimSpace r.Key) : Int) ≤ config.MaxKeyLength →
      (config.OnlyPositiveValues = false ∨ 0 ≤ r.Value) →
      (r.Validate config).2 = none) := by
  refine ⟨?_, ?_, ?_, ?_, ?_, ?_⟩
  · intro h
    have hb : config.IsAllowedType r.Resource = false := (isAllowedType_eq_false_iff _ _).2 h
    simp [CreateMetricRequest.Validate, hb]
  · intro h1 h2
    have hb : config.IsAllowedType r.Resource = true := (isAllowedType_iff_mem _ _).2 h1
    simp [CreateMetricRequest.Validate, hb, h2]
  · intro h1 h2 h3
    rw [createValidate_after_uuid r config h1 h2, if_pos h3]
  · intro h1 h2 h3 h4
    rw [createValidate_after_uuid r config h1 h2, if_neg h3, if_pos h4]
  · intro h1 h2 h3 h4 h5 h6
    rw [createValidate_after_uuid r config h1 h2, if_neg h3, if_neg (by omega),
      if_pos ⟨h5, h6⟩]
  · intro h1 h2 h3 h4 h5
    rw [createValidate_after_uuid r config h1 h2, if_neg h3, if_neg (by omega), if_neg]
    rintro ⟨h6, h7⟩
    rcases h5 with h5 | h5
    · rw [h5] at h6; exact Bool.false_ne_true h6
    · omega

/-- Claim C1, witness. Each branch of `createValidate_first_failing_check` at a
concrete request: one request per failing check, then value 0 under
`onlyPositiveValues` and value -50 without it. -/
theorem createValidate_first_failing_check_witness :
    ((⟨"comment", "123e4567-e89b-12d3-a456-426614174000", "views", 10⟩ :
        CreateMetricRequest).Validate DefaultConfig).2 = some "resource type is not allowed" ∧
    ((⟨"post", "not-a-uuid", "views", 10⟩ : CreateMetricRequest).Validate DefaultConfig).2
      = some "resourceId must be a valid UUID" ∧
    ((⟨"post", "123e4567-e89b-12d3-a456-426614174000", "   ", 10⟩ :
        CreateMetricRequest).Validate DefaultConfig).2 = some "key cannot be empty" ∧
    ((⟨"post", "123e4567-e89b-12d3-a456-426614174000", " abcd ", 10⟩ :
        CreateMetricRequest).Validate { DefaultConfig with MaxKeyLength := 3 }).2
      = some "key exceeds maximum length" ∧
    ((⟨"post", "123e4567-e89b-12d3-a456-426614174000", "views", -1⟩ :
        CreateMetricRequest).Validate { DefaultConfig with OnlyPositiveValues := true }).2
      = some "value must be positive" ∧
    ((⟨"post", "123e4567-e89b-12d3-a456-426614174000", "views", 0⟩ :
        CreateMetricRequest).Validate { DefaultConfig with OnlyPositiveValues := true }).2
      = none ∧
    ((⟨"post", "123e4567-e89b-12d3-a456-426614174000", "delta", -50⟩ :
        CreateMetricRequest).Validate DefaultConfig).2 = none :=
  ⟨(createValidate_first_failing_check _ _).1 (by decide),
   (createValidate_first_failing_check _ _).2.1 (by decide) (by decide),
   (createValidate_first_failing_check _ _).2.2.1 (by decide) (by decide) (by decide),
   (createValidate_first_failing_check _ _).2.2.2.1 (by decide) (by decide) (by decide)
     (by decide),
   (createValidate_first_failing_check _ _).2.2.2.2.1 (by decide) (by decide) (by decide)
     (by decide) (by decide) (by decide),
   (createValidate_first_failing_check _ _).2.2.2.2.2 (by decide) (by decide) (by decide)
     (by decide) (by decide),
   (createValidate_first_failing_check _ _).2.2.2.2.2 (by decide) (by decide) (by decide)
     (by decide) (by decide)⟩

/-- Claim C5, counterexample. A request with resourceId `not-a-uuid` whose
resource is not allowed fails with the resource message, not the UUID one: the
allow-list check comes first. -/
theorem createValidate_not_a_uuid_counterexample :
    ((⟨"comment", "not-a-uuid", "views", 10⟩ : CreateMetricRequest).Validate DefaultConfig).2
      = some "resource type is not allowed" ∧
    ((⟨"comment", "not-a-uuid", "views", 10⟩ : CreateMetricRequest).Validate DefaultConfig).2
      ≠ some "resourceId must be a valid UUID" := by
  decide

/-- Claim C5, amended. A request whose resourceId is `not-a-uuid` always fails
validation: with `resourceId must be a valid UUID` whenever its resource is in
`allowedTypes`, whatever its key and value are, and with
`resource type is not allowed` otherwise. -/
theorem createValidate_not_a_uuid (r : CreateMetricRequest) (config : Config)
    (hid : r.ResourceId = "not-a-uuid") :
    (r.Resource ∈ config.AllowedTypes →
      (r.Validate config).2 = some "resourceId must be a valid UUID") ∧
    (r.Resource ∉ config.AllowedTypes →
      (r.Validate config).2 = some "resource type is not allowed") := by
  have hp : uuid.ParseOk r.ResourceId = false := by rw [hid]; decide
  constructor
  · intro h
    have hb : config.IsAllowedType r.Resource = true := (isAllowedType_iff_mem _ _).2 h
    simp [CreateMetricRequest.Validate, hb, hp]
  · intro h
    have hb : config.IsAllowedType r.Resource = false := (isAllowedType_eq_false_iff _ _).2 h
    simp [CreateMetricRequest.Validate, hb]

/-- Claim C5, witness. The amended statement at a request with an allowed
resource, blank key and negative value. -/
theorem createValidate_not_a_uuid_witness :
    ((⟨"post", "not-a-uuid", "   ", -7⟩ : CreateMetricRequest).Validate
        { DefaultConfig with OnlyPositiveValues := true }).2
      = some "resourceId must be a valid UUID" :=
  (createValidate_not_a_uuid ⟨"post", "not-a-uuid", "   ", -7⟩
    { DefaultConfig with OnlyPositiveValues := true } rfl).1 (by decide)

/-- Claim C8. `UpdateMetricRequest.Validate` fails, with `value must be positive`,
if and only if `onlyPositiveValues` is true and `value < 0`; the result depends
on the Config through `onlyPositiveValues` alone, and value 0 always passes. -/
theorem updateValidate_sign_check_only (r : UpdateMetricRequest) (config : Config) :
    (r.Validate config ≠ none ↔ (config.OnlyPositiveValues = true ∧ r.Value < 0)) ∧
    (r.Validate config ≠ none → r.Validate config = some "value must be positive") ∧
    (∀ (db : Option Nat) (allowedTypes : List String)
        (maxKeyLength paginationLimit maxPaginationLimit : Int),
      r.Validate
        { Database := db, AllowedTypes := allowedTypes, MaxKeyLength := maxKeyLength,
          OnlyPositiveValues := config.OnlyPositiveValues,
          PaginationLimit := paginationLimit, MaxPaginationLimit := maxPaginationLimit }
        = r.Validate config) ∧
    ((⟨0⟩ : UpdateMetricRequest).Validate config = none) := by
  refine ⟨?_, ?_, ?_, ?_⟩
  · unfold UpdateMetricRequest.Validate
    by_cases h : config.OnlyPositiveValues = true ∧ r.Value < 0
    · simp [h.1, h.2, h]
    · have h2 : ¬ ((config.OnlyPositiveValues && decide (r.Value < 0)) = true) := by
        simpa using h
      simp only [if_neg h2, ne_eq, not_true_eq_false, false_iff]
      exact h
  · unfold UpdateMetricRequest.Validate
    split_ifs <;> simp
  · intro db allowedTypes maxKeyLength paginationLimit maxPaginationLimit
    rfl
  · simp [UpdateMetricRequest.Validate]

/-- Claim C8, witness. The three cases of the tests: value -1 fails and value 0
passes under `onlyPositiveValues`, value -50 passes without it. -/
theorem updateValidate_sign_check_only_witness :
    (⟨-1⟩ : UpdateMetricRequest).Validate { DefaultConfig with OnlyPositiveValues := true }
      = some "value must be positive" ∧
    (⟨0⟩ : UpdateMetricRequest).Validate { DefaultConfig with OnlyPositiveValues := true }
      = none ∧
    (⟨-50⟩ : UpdateMetricRequest).Validate DefaultConfig = none :=
  ⟨(updateValidate_sign_check_only ⟨-1⟩ { DefaultConfig with OnlyPositiveValues := true }).2.1
      (by decide),
   (updateValidate_sign_check_only ⟨-1⟩ { DefaultConfig with OnlyPositiveValues := true }).2.2.2,
   by
    have h := (updateValidate_sign_check_only ⟨-50⟩ DefaultConfig).1
    by_contra hne
    exact absurd (h.1 hne).1 (by decide)⟩

/-! ## Strings: trimming and length -/

theorem rdropWhile_append_rtakeWhile_eq {α : Type} (p : α → Bool) (l : List α) :
    l.rdropWhile p ++ l.rtakeWhile p = l := by
  have h := List.takeWhile_append_dropWhile p l.reverse
  have h2 := congrArg List.reverse h
  rw [List.reverse_append, List.reverse_reverse] at h2
  exact h2

/-- Trimming splits the list into a run satisfying `p`, the trimmed list, and
another run satisfying `p`. -/
theorem trim_decompose {α : Type} (p : α → Bool) (l : List α) :
    ∃ pre post : List α, l = pre ++ (l.dropWhile p).rdropWhile p ++ post ∧
      (∀ c ∈ pre, p c = true) ∧ (∀ c ∈ post, p c = true) := by
  refine ⟨l.takeWhile p, (l.dropWhile p).rtakeWhile p, ?_, ?_, ?_⟩
  · rw [List.append_assoc, rdropWhile_append_rtakeWhile_eq, List.takeWhile_append_dropWhile]
  · intro c hc; exact List.mem_takeWhile_imp hc
  · intro c hc; exact List.mem_rtakeWhile_imp hc

theorem trim_head_not {α : Type} (p : α → Bool) (l : List α) (c : α)
    (h : ((l.dropWhile p).rdropWhile p).head? = some c) : p c = false := by
  have hd := rdropWhile_append_rtakeWhile_eq p (l.dropWhile p)
  have hn := List.head?_dropWhile_not p l
  cases ht : (l.dropWhile p).rdropWhile p with
  | nil => rw [ht] at h; simp at h
  | cons a rest =>
    rw [ht] at h hd
    simp only [List.head?_cons, Option.some.injEq] at h
    rw [← hd] at hn
    simp only [List.cons_append, List.head?_cons] at hn
    rw [← h]; exact hn

theorem trim_last_not {α : Type} (p : α → Bool) (l : List α) (c : α)
    (h : ((l.dropWhile p).rdropWhile p).getLast? = some c) : p c = false := by
  have hne : (l.dropWhile p).rdropWhile p ≠ [] := by
    intro e; rw [e] at h; simp at h
  have := List.rdropWhile_last_not (p := p) (l := l.dropWhile p) hne
  rw [List.getLast?_eq_getLast _ hne] at h
  simp only [Option.some.injEq] at h
  rw [← h]; simpa using this

theorem utf8ByteSize_go_eq (l : List Char) :
    String.utf8ByteSize.go l = (l.flatMap String.utf8EncodeChar).length := by
  induction l with
  | nil => rfl
  | cons c cs ih =>
    rw [String.utf8ByteSize.go, ih, List.flatMap_cons, List.length_append,
      String.length_utf8EncodeChar, Nat.add_comm]

theorem len_eq_length_bytes (s : String) : len s = (bytes s).length := by
  cases s with
  | mk l => exact utf8ByteSize_go_eq l

theorem utf8ByteSize_go_ascii (l : List Char) (h : ∀ c ∈ l, c.toNat < 128) :
    String.utf8ByteSize.go l = l.length := by
  induction l with
  | nil => rfl
  | cons c cs ih =>
    have hc : c.toNat < 128 := h c (List.mem_cons_self _ _)
    have h1 : c.utf8Size = 1 := by
      unfold Char.utf8Size
      have : c.val ≤ UInt32.ofNatCore 127 (by decide) := by
        show c.val.toNat ≤ 127
        have : c.val.toNat = c.toNat := rfl
        omega
      rw [if_pos this]
    rw [String.utf8ByteSize.go, ih (fun c hc => h c (List.mem_cons_of_mem _ hc)), h1,
      List.length_cons]

/-- For a string of ASCII characters, `len` is the number of characters. -/
theorem len_ascii (s : String) (h : ∀ c ∈ s.data, c.toNat < 128) : len s = s.length := by
  cases s with
  | mk l => exact utf8ByteSize_go_ascii l h

/-- A run of one non-space character is left as it is by `strings.TrimSpace`. -/
theorem trimSpace_replicate (n : Nat) (a : Char) (h : unicode.IsSpace a = false) :
    strings.TrimSpace ⟨List.replicate n a⟩ = ⟨List.replicate n a⟩ := by
  unfold strings.TrimSpace
  congr 1
  rw [List.dropWhile_replicate, if_neg (by simp [h]), List.rdropWhile,
    List.reverse_replicate, List.dropWhile_replicate, if_neg (by simp [h]),
    List.reverse_replicate]

/-- Claim C6. When `CreateMetricRequest.Validate` returns no error, the key of the
request after the call is the original key with leading and trailing whitespace
removed: the original key is a run of whitespace, the new key, and a run of
whitespace; the new key is non-empty and neither starts nor ends with
whitespace.  Resource, resourceId and value are unchanged. -/
theorem createValidate_trims_key (r : CreateMetricRequest) (config : Config)
    (h : (r.Validate config).2 = none) :
    (r.Validate config).1.Key = strings.TrimSpace r.Key ∧
    (∃ pre post : List Char,
      r.Key.data = pre ++ (r.Validate config).1.Key.data ++ post ∧
      (∀ c ∈ pre, unicode.IsSpace c = true) ∧ (∀ c ∈ post, unicode.IsSpace c = true)) ∧
    (r.Validate config).1.Key ≠ "" ∧
    (∀ c, (r.Validate config).1.Key.data.head? = some c → unicode.IsSpace c = false) ∧
    (∀ c, (r.Validate config).1.Key.data.getLast? = some c → unicode.IsSpace c = false) ∧
    (r.Validate config).1.Resource = r.Resource ∧
    (r.Validate config).1.ResourceId = r.ResourceId ∧
    (r.Validate config).1.Value = r.Value := by
  by_cases h1 : r.Resource ∈ config.AllowedTypes
  · cases h2 : uuid.ParseOk r.ResourceId with
    | false =>
      rw [(createValidate_early_checks r config).2 h1 h2] at h
      exact absurd h (by simp)
    | true =>
      rw [createValidate_after_uuid r config h1 h2] at h ⊢
      by_cases h3 : strings.TrimSpace r.Key = ""
      · rw [if_pos h3] at h; exact absurd h (by simp)
      · rw [if_neg h3] at h ⊢
        split_ifs at h ⊢ with h4 h5
        refine ⟨rfl, trim_decompose unicode.IsSpace r.Key.data, h3, ?_, ?_, rfl, rfl, rfl⟩
        · exact fun c hc => trim_head_not unicode.IsSpace r.Key.data c hc
        · exact fun c hc => trim_last_not unicode.IsSpace r.Key.data c hc
  · rw [(createValidate_early_checks r config).1 h1] at h
    exact absurd h (by simp)

/-- Claim C6, witness. A request whose key carries blanks and a tab around
`views`. -/
theorem createValidate_trims_key_witness :
    ((⟨"post", "123e4567-e89b-12d3-a456-426614174000", "  views \t", 10⟩ :
        CreateMetricRequest).Validate DefaultConfig).1.Key = "views" :=
  (createValidate_trims_key ⟨"post", "123e4567-e89b-12d3-a456-426614174000", "  views \t", 10⟩
    DefaultConfig (by decide)).1.trans (by decide)

/-- Claim C7, counterexample. With `maxKeyLength = 3` (a Config that passes
`Validate`) the key `éé`, of two characters, is rejected for its length: the
check compares the byte length, 4, with `maxKeyLength`. -/
theorem createValidate_key_length_counterexample :
    ({ DefaultConfig with MaxKeyLength := 3 } : Config).Validate = none ∧
    (strings.TrimSpace "\u00e9\u00e9").length = 2 ∧
    ((⟨"post", "123e4567-e89b-12d3-a456-426614174000", "\u00e9\u00e9", 1⟩ :
        CreateMetricRequest).Validate { DefaultConfig with MaxKeyLength := 3 }).2
      = some "key exceeds maximum length" := by
  decide

/-- Claim C7, amended. For a request with an allowed resource, a valid UUID
resourceId and a key that is non-empty after trimming, `Validate` returns
`key exceeds maximum length` exactly when the trimmed key has more than
`maxKeyLength` bytes in UTF-8 (Go's `len`); a trimmed key of at most
`maxKeyLength` bytes is never rejected for its length.  For a trimmed key of
ASCII characters the number of bytes is the number of characters (a key of 256
characters `a` is rejected with `maxKeyLength = 255`). -/
theorem createValidate_key_length (r : CreateMetricRequest) (config : Config)
    (h1 : r.Resource ∈ config.AllowedTypes) (h2 : uuid.ParseOk r.ResourceId = true)
    (h3 : strings.TrimSpace r.Key ≠ "") :
    ((r.Validate config).2 = some "key exceeds maximum length" ↔
      config.MaxKeyLength < (len (strings.TrimSpace r.Key) : Int)) ∧
    ((∀ c ∈ (strings.TrimSpace r.Key).data, c.toNat < 128) →
      ((r.Validate config).2 = some "key exceeds maximum length" ↔
        config.MaxKeyLength < ((strings.TrimSpace r.Key).length : Int))) ∧
    (config.MaxKeyLength = 255 → r.Key = ⟨List.replicate 256 'a'⟩ →
      (r.Validate config).2 = some "key exceeds maximum length") := by
  have hiff : (r.Validate config).2 = some "key exceeds maximum length" ↔
      config.MaxKeyLength < (len (strings.TrimSpace r.Key) : Int) := by
    rw [createValidate_after_uuid r config h1 h2, if_neg h3]
    split_ifs with h4 h5
    · simp [h4]
    · have : ¬ ("value must be positive" = "key exceeds maximum length") := by decide
      simp [h4, this]
    · simp [h4]
  refine ⟨hiff, ?_, ?_⟩
  · intro hascii
    rw [hiff, len_ascii _ hascii]
  · intro hm hk
    rw [hiff, hk, trimSpace_replicate 256 'a' (by decide), hm,
      len_ascii _ (by
        intro c hc
        rw [List.eq_of_mem_replicate hc]
        decide)]
    show (255 : Int) < ((List.replicate 256 'a').length : Int)
    rw [List.length_replicate]
    decide

/-- Claim C7, witness. A key of 256 characters `a` under the default Config. -/
theorem createValidate_key_length_witness :
    ((⟨"post", "123e4567-e89b-12d3-a456-426614174000", ⟨List.replicate 256 'a'⟩, 100⟩ :
        CreateMetricRequest).Validate DefaultConfig).2 = some "key exceeds maximum length" :=
  (createValidate_key_length
    ⟨"post", "123e4567-e89b-12d3-a456-426614174000", ⟨List.replicate 256 'a'⟩, 100⟩
    DefaultConfig (by decide) (by decide)
    (by
      rw [trimSpace_replicate 256 'a' (by decide)]
      intro e
      have hl : (List.replicate 256 'a').length = 0 := congrArg String.length e
      rw [List.length_replicate] at hl
      exact absurd hl (by decide))).2.2 rfl rfl

/-! ## Plugin initialisation -/

/-- The loop of `Initialize` keeps the string elements, in order. -/
theorem collectTypes_eq (xs : List Value) (types : List String) :
    MetricsPlugin.collectTypes xs types = types ++ xs.filterMap Value.asString := by
  induction xs generalizing types with
  | nil => simp [MetricsPlugin.collectTypes]
  | cons x rest ih =>
    cases x <;> simp [MetricsPlugin.collectTypes, ih, Value.asString]

/-- A list made of strings only is returned whole. -/
theorem filterMap_asString_map_str (ss : List String) :
    (ss.map Value.str).filterMap Value.asString = ss := by
  induction ss with
  | nil => rfl
  | cons s rest ih =>
    simp only [List.map_cons, List.filterMap_cons, Value.asString, ih]

theorem initialize_database (p : MetricsPlugin) (m : ConfigMap) :
    (p.Initialize m).1.config.Database =
      match m.lookup "database" with
      | some (Value.database h) => some h
      | _ => none := by
  unfold MetricsPlugin.Initialize
  dsimp only
  repeat' split
  all_goals rfl

theorem initialize_db (p : MetricsPlugin) (m : ConfigMap) :
    (p.Initialize m).1.db =
      match m.lookup "database" with
      | some (Value.database h) => some h
      | _ => p.db := by
  unfold MetricsPlugin.Initialize
  dsimp only
  repeat' split
  all_goals rfl

theorem initialize_allowedTypes_slice (p : MetricsPlugin) (m : ConfigMap) (xs : List Value)
    (h : m.lookup "allowed_types" = some (Value.slice xs)) :
    (p.Initialize m).1.config.AllowedTypes =
      if xs.filterMap Value.asString = [] then ["post"] else xs.filterMap Value.asString := by
  unfold MetricsPlugin.Initialize
  dsimp only
  rw [h]
  dsimp only
  simp only [collectTypes_eq, List.nil_append]
  by_cases he : xs.filterMap Value.asString = []
  · rw [if_pos he, if_neg (by simp [he])]
    repeat' split
    all_goals rfl
  · rw [if_neg he, if_pos (List.length_pos.mpr he)]
    repeat' split
    all_goals rfl

theorem initialize_allowedTypes_other (p : MetricsPlugin) (m : ConfigMap)
    (h : ∀ xs, m.lookup "allowed_types" ≠ some (Value.slice xs)) :
    (p.Initialize m).1.config.AllowedTypes = ["post"] := by
  unfold MetricsPlugin.Initialize
  dsimp only
  repeat' split
  all_goals first | rfl | (exfalso; rename_i hx; exact h _ (by assumption))

theorem initialize_maxKeyLength (p : MetricsPlugin) (m : ConfigMap) :
    (p.Initialize m).1.config.MaxKeyLength =
      match m.lookup "max_key_length" with
      | some (Value.int n) => n
      | _ => 255 := by
  unfold MetricsPlugin.Initialize
  dsimp only
  repeat' split
  all_goals rfl

theorem initialize_onlyPositiveValues (p : MetricsPlugin) (m : ConfigMap) :
    (p.Initialize m).1.config.OnlyPositiveValues =
      match m.lookup "only_positive_values" with
      | some (Value.bool b) => b
      | _ => false := by
  unfold MetricsPlugin.Initialize
  dsimp only
  repeat' split
  all_goals rfl

theorem initialize_paginationLimit (p : MetricsPlugin) (m : ConfigMap) :
    (p.Initialize m).1.config.PaginationLimit =
      match m.lookup "pagination_limit" with
      | some (Value.int n) => n
      | _ => 50 := by
  unfold MetricsPlugin.Initialize
  dsimp only
  repeat' split
  all_goals rfl

theorem initialize_maxPaginationLimit (p : MetricsPlugin) (m : ConfigMap) :
    (p.Initialize m).1.config.MaxPaginationLimit =
      match m.lookup "max_pagination_limit" with
      | some (Value.int n) => n
      | _ => 200 := by
  unfold MetricsPlugin.Initialize
  dsimp only
  repeat' split
  all_goals rfl

/-- Claim C9, counterexample. An `allowed_types` list is not taken exactly as
supplied.  The empty list leaves the default `["post"]` in place and
`Initialize` returns no error, whereas `Config.Validate` rejects the Config
holding the supplied (empty) list; and from the list `[7, "user"]` the config
receives `["user"]`, neither the supplied list nor the default. -/
theorem initialize_allowed_types_counterexample :
    (NewPlugin.Initialize [("allowed_types", Value.slice [])]).1.config.AllowedTypes
      = ["post"] ∧
    (NewPlugin.Initialize [("allowed_types", Value.slice [])]).2 = none ∧
    ({ DefaultConfig with AllowedTypes := [] } : Config).Validate
      = some "allowed_types cannot be empty" ∧
    (NewPlugin.Initialize
        [("allowed_types", Value.slice [Value.int 7, Value.str "user"])]).1.config.AllowedTypes
      = ["user"] := by
  decide

/-- Claim C9, amended. After `Initialize m` the plugin's config is
`DefaultConfig()` with each recognised key overlaid when present and correctly
typed: `database`, the supplied handle (also stored as the plugin's `db`);
`allowed_types`, given as a list, the string elements of the list in order,
non-string elements being dropped, provided at least one string remains (so a
non-empty list of strings is taken exactly as supplied); `max_key_length`,
`pagination_limit`, `max_pagination_limit`, the supplied integer;
`only_positive_values`, the supplied boolean.  Keys that are absent or wrongly
typed, and an `allowed_types` list without any string, leave the default in
place without error, and `Initialize` returns exactly the result of
`Config.Validate` on that overlaid config. -/
theorem initialize_overlays_defaults (p : MetricsPlugin) (m : ConfigMap) :
    ((∀ xs, m.lookup "allowed_types" = some (Value.slice xs) →
        xs.filterMap Value.asString ≠ [] →
        (p.Initialize m).1.config.AllowedTypes = xs.filterMap Value.asString) ∧
      (∀ ss : List String, ss ≠ [] →
        m.lookup "allowed_types" = some (Value.slice (ss.map Value.str)) →
        (p.Initialize m).1.config.AllowedTypes = ss) ∧
      ((∀ xs, m.lookup "allowed_types" = some (Value.slice xs) →
          xs.filterMap Value.asString = []) →
        (p.Initialize m).1.config.AllowedTypes = DefaultConfig.AllowedTypes)) ∧
    ((∀ n, m.lookup "max_key_length" = some (Value.int n) →
        (p.Initialize m).1.config.MaxKeyLength = n) ∧
      ((∀ n, m.lookup "max_key_length" ≠ some (Value.int n)) →
        (p.Initialize m).1.config.MaxKeyLength = DefaultConfig.MaxKeyLength)) ∧
    ((∀ b, m.lookup "only_positive_values" = some (Value.bool b) →
        (p.Initialize m).1.config.OnlyPositiveValues = b) ∧
      ((∀ b, m.lookup "only_positive_values" ≠ some (Value.bool b)) →
        (p.Initialize m).1.config.OnlyPositiveValues = DefaultConfig.OnlyPositiveValues)) ∧
    ((∀ n, m.lookup "pagination_limit" = some (Value.int n) →
        (p.Initialize m).1.config.PaginationLimit = n) ∧
      ((∀ n, m.lookup "pagination_limit" ≠ some (Value.int n)) →
        (p.Initialize m).1.config.PaginationLimit = DefaultConfig.PaginationLimit)) ∧
    ((∀ n, m.lookup "max_pagination_limit" = some (Value.int n) →
        (p.Initialize m).1.config.MaxPaginationLimit = n) ∧
      ((∀ n, m.lookup "max_pagination_limit" ≠ some (Value.int n)) →
        (p.Initialize m).1.config.MaxPaginationLimit = DefaultConfig.MaxPaginationLimit)) ∧
    ((∀ h, m.lookup "database" = some (Value.database h) →
        (p.Initialize m).1.config.Database = some h ∧ (p.Initialize m).1.db = some h) ∧
      ((∀ h, m.lookup "database" ≠ some (Value.database h)) →
        (p.Initialize m).1.config.Database = DefaultConfig.Database ∧
        (p.Initialize m).1.db = p.db)) ∧
    (p.Initialize m).2 = (p.Initialize m).1.config.Validate := by
  refine ⟨⟨?_, ?_, ?_⟩, ⟨?_, ?_⟩, ⟨?_, ?_⟩, ⟨?_, ?_⟩, ⟨?_, ?_⟩, ⟨?_, ?_⟩, rfl⟩
  · intro xs hx hne
    rw [initialize_allowedTypes_slice p m xs hx, if_neg hne]
  · intro ss hne hx
    rw [initialize_allowedTypes_slice p m _ hx, filterMap_asString_map_str, if_neg hne]
  · intro hx
    cases hl : m.lookup "allowed_types" with
    | none => exact initialize_allowedTypes_other p m (by simp [hl])
    | some v =>
      cases v with
      | slice xs => rw [initialize_allowedTypes_slice p m xs hl, if_pos (hx xs hl)]; rfl
      | _ => exact initialize_allowedTypes_other p m (by simp [hl])
  · intro n hn
    rw [initialize_maxKeyLength, hn]
  · intro hn
    rw [initialize_maxKeyLength]
    split
    · rename_i n hx; exact absurd hx (hn n)
    · rfl
  · intro b hb
    rw [initialize_onlyPositiveValues, hb]
  · intro hb
    rw [initialize_onlyPositiveValues]
    split
    · rename_i b hx; exact absurd hx (hb b)
    · rfl
  · intro n hn
    rw [initialize_paginationLimit, hn]
  · intro hn
    rw [initialize_paginationLimit]
    split
    · rename_i n hx; exact absurd hx (hn n)
    · rfl
  · intro n hn
    rw [initialize_maxPaginationLimit, hn]
  · intro hn
    rw [initialize_maxPaginationLimit]
    split
    · rename_i n hx; exact absurd hx (hn n)
    · rfl
  · intro h hh
    rw [initialize_database, initialize_db, hh]
    exact ⟨rfl, rfl⟩
  · intro hh
    rw [initialize_database, initialize_db]
    split
    · rename_i h hx; exact absurd hx (hh h)
    · exact ⟨rfl, rfl⟩

/-- Claim C9, witness. A map with a list of two strings, a wrongly typed
`max_key_length` and an integer `pagination_limit`. -/
theorem initialize_overlays_defaults_witness :
    (NewPlugin.Initialize
        [("allowed_types", Value.slice [Value.str "post", Value.str "product"]),
         ("max_key_length", Value.other "float64"),
         ("pagination_limit", Value.int 25)]).1.config.AllowedTypes = ["post", "product"] ∧
    (NewPlugin.Initialize
        [("allowed_types", Value.slice [Value.str "post", Value.str "product"]),
         ("max_key_length", Value.other "float64"),
         ("pagination_limit", Value.int 25)]).1.config.MaxKeyLength = 255 ∧
    (NewPlugin.Initialize
        [("allowed_types", Value.slice [Value.str "post", Value.str "product"]),
         ("max_key_length", Value.other "float64"),
         ("pagination_limit", Value.int 25)]).1.config.PaginationLimit = 25 :=
  ⟨(initialize_overlays_defaults _ _).1.2.1 ["post", "product"] (by decide) rfl,
   (initialize_overlays_defaults _ _).2.1.2 (fun n h => by simp [List.lookup] at h),
   (initialize_overlays_defaults _ _).2.2.2.1.1 25 rfl⟩

/-- Claim C10, counterexample. On a fresh plugin, a map with a database handle and
`max_key_length = 0` makes `Initialize` return an error, yet the stored config
and database handle have changed, and `SetupEndpoints` then registers the five
routes with that config, which fails `Validate`. -/
theorem initialize_error_counterexample :
    (NewPlugin.Initialize [("database", Value.database 1), ("max_key_length", Value.int 0)]).2
      = some "max_key_length must be between 1 and 255" ∧
    (NewPlugin.Initialize
        [("database", Value.database 1), ("max_key_length", Value.int 0)]).1.config
      ≠ NewPlugin.config ∧
    (NewPlugin.Initialize [("database", Value.database 1), ("max_key_length", Value.int 0)]).1.db
      ≠ NewPlugin.db ∧
    (((NewPlugin.Initialize
        [("database", Value.database 1), ("max_key_length", Value.int 0)]).1.SetupEndpoints
          []).1.map fun route => (route.path, route.res.Config.Validate))
      = [("/metrics", some "max_key_length must be between 1 and 255"),
         ("/metrics/:id", some "max_key_length must be between 1 and 255"),
         ("/metrics", some "max_key_length must be between 1 and 255"),
         ("/metrics/:id", some "max_key_length must be between 1 and 255"),
         ("/metrics/:id", some "max_key_length must be between 1 and 255")] := by
  decide

/-- Claim C10, amended. When `Initialize` returns an error, the error is that of
`Config.Validate` on the overlaid config, and that failing config is stored in
the plugin all the same (so it differs from any earlier config that passed
`Validate`); the stored database handle is the supplied one when the map holds a
database, and the earlier one otherwise.  `SetupEndpoints` looks at the database
handle only: with a handle stored it registers the routes with the stored
config, without one it registers nothing. -/
theorem initialize_error_stores_overlay (p : MetricsPlugin) (m : ConfigMap)
    (herr : (p.Initialize m).2 ≠ none) :
    (p.Initialize m).1.config.Validate = (p.Initialize m).2 ∧
    (p.config.Validate = none → (p.Initialize m).1.config ≠ p.config) ∧
    (∀ h, m.lookup "database" = some (Value.database h) → (p.Initialize m).1.db = some h) ∧
    ((∀ h, m.lookup "database" ≠ some (Value.database h)) → (p.Initialize m).1.db = p.db) ∧
    (∀ (app : List Route) (db : Nat), (p.Initialize m).1.db = some db →
      (p.Initialize m).1.SetupEndpoints app
        = (RegisterRoutes app db (p.Initialize m).1.config, none) ∧
      ∃ routes : List Route,
        ((p.Initialize m).1.SetupEndpoints app).1 = app ++ routes ∧ routes.length = 5 ∧
        ∀ route ∈ routes, route.res.Config = (p.Initialize m).1.config ∧
          route.res.Config.Validate ≠ none) ∧
    (∀ app : List Route, (p.Initialize m).1.db = none →
      (p.Initialize m).1.SetupEndpoints app = (app, none)) := by
  have hv : (p.Initialize m).1.config.Validate = (p.Initialize m).2 := rfl
  refine ⟨hv, ?_, ?_, ?_, ?_, ?_⟩
  · intro hp he
    rw [he] at hv
    exact herr (hv.symm.trans hp)
  · intro h hh
    rw [initialize_db, hh]
  · intro hh
    rw [initialize_db]
    split
    · rename_i h hx; exact absurd hx (hh h)
    · rfl
  · intro app db hdb
    have hs : (p.Initialize m).1.SetupEndpoints app
        = (RegisterRoutes app db (p.Initialize m).1.config, none) := by
      simp only [MetricsPlugin.SetupEndpoints, hdb]
    refine ⟨hs, ?_⟩
    rw [hs]
    simp only [RegisterRoutes, RegisterMetricRoutes]
    refine ⟨_, rfl, rfl, ?_⟩
    intro route hr
    simp only [List.mem_cons, List.mem_singleton, List.not_mem_nil, or_false] at hr
    rcases hr with rfl | rfl | rfl | rfl | rfl <;> exact ⟨rfl, by rw [hv]; exact herr⟩
  · intro app hdb
    simp only [MetricsPlugin.SetupEndpoints, hdb]

/-- Claim C10, witness. A plugin initialised once with a handle and the defaults,
then again with `pagination_limit = 0`. -/
theorem initialize_error_stores_overlay_witness :
    ((⟨{ DefaultConfig with Database := some 1 }, some 1⟩ : MetricsPlugin).Initialize
        [("pagination_limit", Value.int 0)]).1.config
      ≠ { DefaultConfig with Database := some 1 } ∧
    ((⟨{ DefaultConfig with Database := some 1 }, some 1⟩ : MetricsPlugin).Initialize
        [("pagination_limit", Value.int 0)]).1.db = some 1 :=
  ⟨(initialize_error_stores_overlay ⟨{ DefaultConfig with Database := some 1 }, some 1⟩
      [("pagination_limit", Value.int 0)] (by decide)).2.1 (by decide),
   (initialize_error_stores_overlay ⟨{ DefaultConfig with Database := some 1 }, some 1⟩
      [("pagination_limit", Value.int 0)] (by decide)).2.2.2.1
      (fun h e => by simp [List.lookup] at e)⟩

/-! ## Filters -/

/-- The inner loop of `validateResourceFilter` runs to its end exactly when
every value is an allowed type. -/
theorem validateResourceValues_eq_none_iff (r : MetricResource) (vs : List String) :
    r.validateResourceValues vs = none ↔ ∀ v ∈ vs, r.Config.IsAllowedType v = true := by
  induction vs with
  | nil => simp [MetricResource.validateResourceValues]
  | cons a rest ih =>
    unfold MetricResource.validateResourceValues
    cases h : r.Config.IsAllowedType a with
    | false => simp [h]
    | true => simp [h, ih]

/-- The inner loop of `validateResourceFilter` stops at the first value that is
not an allowed type. -/
theorem validateResourceValues_first (r : MetricResource) (vpre vpost : List String)
    (v : String) (h1 : ∀ w ∈ vpre, r.Config.IsAllowedType w = true)
    (h2 : r.Config.IsAllowedType v = false) :
    r.validateResourceValues (vpre ++ v :: vpost) =
      some ("invalid resource type \x27" ++ v ++ "\x27 (allowed: " ++
        fmt.sliceV r.Config.AllowedTypes ++ ")") := by
  induction vpre with
  | nil => simp [MetricResource.validateResourceValues, h2]
  | cons a rest ih =>
    have ha : r.Config.IsAllowedType a = true := h1 a (List.mem_cons_self _ _)
    rw [List.cons_append, MetricResource.validateResourceValues]
    simp only [ha, Bool.not_true, Bool.false_eq_true, if_false]
    exact ih (fun w hw => h1 w (List.mem_cons_of_mem _ hw))

/-- The outer loop of `validateResourceFilter` runs to its end exactly when every
value of every filter on `resource` is an allowed type. -/
theorem validateResourceFilters_eq_none_iff (r : MetricResource) (fs : List Filter) :
    r.validateResourceFilters fs = none ↔
      ∀ f ∈ fs, f.Field = "resource" → ∀ v ∈ f.Values, r.Config.IsAllowedType v = true := by
  induction fs with
  | nil => simp [MetricResource.validateResourceFilters]
  | cons a rest ih =>
    unfold MetricResource.validateResourceFilters
    by_cases hf : a.Field = "resource"
    · rw [if_pos hf]
      cases hv : r.validateResourceValues a.Values with
      | some e =>
        have hne : ¬ ∀ v ∈ a.Values, r.Config.IsAllowedType v = true := by
          intro hall
          rw [(validateResourceValues_eq_none_iff r a.Values).2 hall] at hv
          exact Option.noConfusion hv
        simp only [List.mem_cons, forall_eq_or_imp]
        constructor
        · intro h; exact Option.noConfusion h
        · intro h; exact absurd (h.1 hf) hne
      | none =>
        have hall := (validateResourceValues_eq_none_iff r a.Values).1 hv
        simp only [ih, List.mem_cons, forall_eq_or_imp]
        constructor
        · intro h; exact ⟨fun _ => hall, h⟩
        · intro h; exact h.2
    · rw [if_neg hf, ih]
      simp only [List.mem_cons, forall_eq_or_imp]
      constructor
      · intro h; exact ⟨fun e => absurd e hf, h⟩
      · intro h; exact h.2

/-- Filters that pass are skipped by the outer loop of `validateResourceFilter`. -/
theorem validateResourceFilters_append (r : MetricResource) (pre rest : List Filter)
    (h : ∀ g ∈ pre, g.Field = "resource" → ∀ w ∈ g.Values, r.Config.IsAllowedType w = true) :
    r.validateResourceFilters (pre ++ rest) = r.validateResourceFilters rest := by
  induction pre with
  | nil => rfl
  | cons a pre ih =>
    have ih2 := ih (fun g hg => h g (List.mem_cons_of_mem _ hg))
    rw [List.cons_append, MetricResource.validateResourceFilters]
    by_cases hf : a.Field = "resource"
    · rw [if_pos hf,
        (validateResourceValues_eq_none_iff r a.Values).2 (h a (List.mem_cons_self _ _) hf)]
      exact ih2
    · rw [if_neg hf]; exact ih2

/-- Filters on other fields do not take part in `validateResourceFilter`. -/
theorem validateResourceFilters_filter (r : MetricResource) (fs : List Filter) :
    r.validateResourceFilters (fs.filter fun f => decide (f.Field = "resource"))
      = r.validateResourceFilters fs := by
  induction fs with
  | nil => rfl
  | cons a rest ih =>
    by_cases hf : a.Field = "resource"
    · rw [List.filter_cons_of_pos (by simpa using hf)]
      simp only [MetricResource.validateResourceFilters, if_pos hf, ih]
    · rw [List.filter_cons_of_neg (by simpa using hf), ih]
      conv => rhs; unfold MetricResource.validateResourceFilters
      rw [if_neg hf]

/-- The loop of `validateFilterLimits` runs to its end exactly when no filter
has more than 50 values. -/
theorem validateFilterLimitsLoop_eq_none_iff (fs : List Filter) :
    MetricResource.validateFilterLimitsLoop fs = none ↔ ∀ f ∈ fs, f.Values.length ≤ 50 := by
  induction fs with
  | nil => simp [MetricResource.validateFilterLimitsLoop]
  | cons a rest ih =>
    unfold MetricResource.validateFilterLimitsLoop
    by_cases h : a.Values.length > MaxFilterValuesPerField
    · have h2 : ¬ a.Values.length ≤ 50 := by
        unfold MaxFilterValuesPerField at h; omega
      simp [h, h2]
    · have h2 : a.Values.length ≤ 50 := by
        unfold MaxFilterValuesPerField at h; omega
      simp [h, h2, ih]

/-- The loop of `validateFilterLimits` stops at the first filter with more than
50 values. -/
theorem validateFilterLimitsLoop_first (pre post : List Filter) (f : Filter)
    (h1 : ∀ g ∈ pre, g.Values.length ≤ 50) (h2 : 50 < f.Values.length) :
    MetricResource.validateFilterLimitsLoop (pre ++ f :: post) =
      some ("too many filter values for field \x27" ++ f.Field ++ "\x27 (max: " ++
        fmt.intD 50 ++ ", got: " ++ fmt.intD f.Values.length ++ ")") := by
  induction pre with
  | nil =>
    have h3 : f.Values.length > MaxFilterValuesPerField := h2
    simp only [List.nil_append, MetricResource.validateFilterLimitsLoop, h3, if_true]
    rfl
  | cons a rest ih =>
    have ha : ¬ a.Values.length > MaxFilterValuesPerField := by
      have := h1 a (List.mem_cons_self _ _)
      unfold MaxFilterValuesPerField; omega
    rw [List.cons_append, MetricResource.validateFilterLimitsLoop, if_neg ha]
    exact ih (fun g hg => h1 g (List.mem_cons_of_mem _ hg))

/-- Claim C11. `validateResourceFilter` returns an error if and only if some
filter on field `resource` has a value that is not an allowed type; the message
names the first such value in filter-then-value order and lists the configured
allowed types; filters on other fields never cause the error (dropping them does
not change the result); and `List` answers 400 with that message before any
storage call. -/
theorem validateResourceFilter_iff_disallowed (r : MetricResource) (filters : FilterSet) :
    (r.validateResourceFilter filters ≠ none ↔
      ∃ f ∈ filters.Filters, f.Field = "resource" ∧
        ∃ v ∈ f.Values, r.Config.IsAllowedType v = false) ∧
    (∀ (pre post : List Filter) (f : Filter) (vpre vpost : List String) (v : String),
      filters.Filters = pre ++ f :: post →
      (∀ g ∈ pre, g.Field = "resource" → ∀ w ∈ g.Values, r.Config.IsAllowedType w = true) →
      f.Field = "resource" → f.Values = vpre ++ v :: vpost →
      (∀ w ∈ vpre, r.Config.IsAllowedType w = true) → r.Config.IsAllowedType v = false →
      r.validateResourceFilter filters =
        some ("invalid resource type \x27" ++ v ++ "\x27 (allowed: " ++
          fmt.sliceV r.Config.AllowedTypes ++ ")")) ∧
    ((∀ f ∈ filters.Filters, f.Field ≠ "resource") → r.validateResourceFilter filters = none) ∧
    (r.validateResourceFilter ⟨filters.Filters.filter fun f => decide (f.Field = "resource")⟩
      = r.validateResourceFilter filters) ∧
    (∀ (crud : CRUD) (c : ListRequest) (err : String), c.filters = Except.ok filters →
      r.validateResourceFilter filters = some err →
      r.List crud c = (⟨400, Body.error err⟩, [])) := by
  refine ⟨?_, ?_, ?_, ?_, ?_⟩
  · unfold MetricResource.validateResourceFilter
    rw [ne_eq, validateResourceFilters_eq_none_iff]
    constructor
    · intro h
      by_contra hno
      apply h
      intro f hf hfield v hv
      cases hb : r.Config.IsAllowedType v with
      | true => rfl
      | false => exact absurd ⟨f, hf, hfield, v, hv, hb⟩ hno
    · rintro ⟨f, hf, hfield, v, hv, hb⟩ h
      rw [h f hf hfield v hv] at hb
      exact Bool.noConfusion hb
  · intro pre post f vpre vpost v hfs hpre hfield hvals hvpre hv
    unfold MetricResource.validateResourceFilter
    rw [hfs, validateResourceFilters_append r pre (f :: post) hpre,
      MetricResource.validateResourceFilters, if_pos hfield, hvals,
      validateResourceValues_first r vpre vpost v hvpre hv]
  · intro h
    unfold MetricResource.validateResourceFilter
    rw [validateResourceFilters_eq_none_iff]
    intro f hf hfield
    exact absurd hfield (h f hf)
  · unfold MetricResource.validateResourceFilter
    exact validateResourceFilters_filter r filters.Filters
  · intro crud c err hc herr
    unfold MetricResource.List
    simp only [hc, herr]

/-- Claim C11, witness. `GET /metrics?resource=comment` against
`allowedTypes = ["post"]`: the error names `comment` and lists the allowed types,
and `List` answers 400; a filter on `key` alone passes. -/
theorem validateResourceFilter_iff_disallowed_witness :
    (⟨1, DefaultConfig, 50, 200⟩ : MetricResource).validateResourceFilter
        ⟨[⟨"key", ["comment"]⟩, ⟨"resource", ["post", "comment", "user"]⟩]⟩
      = some "invalid resource type \x27comment\x27 (allowed: [post])" ∧
    (⟨1, DefaultConfig, 50, 200⟩ : MetricResource).validateResourceFilter
        ⟨[⟨"key", ["comment"]⟩]⟩ = none ∧
    (⟨1, DefaultConfig, 50, 200⟩ : MetricResource).List
        ⟨fun _ => none, fun _ => Except.error "no rows", fun _ _ => none, fun _ => none,
          fun _ => Except.ok ⟨[], 0⟩⟩
        ⟨50, 1, "true", Except.ok ⟨[⟨"resource", ["comment"]⟩]⟩, Except.ok []⟩
      = (⟨400, Body.error "invalid resource type \x27comment\x27 (allowed: [post])"⟩, []) :=
  ⟨(validateResourceFilter_iff_disallowed _ _).2.1 [⟨"key", ["comment"]⟩] []
      ⟨"resource", ["post", "comment", "user"]⟩ ["post"] ["user"] "comment" rfl
      (by decide) rfl rfl (by decide) (by decide),
   (validateResourceFilter_iff_disallowed _ _).2.2.1 (by decide),
   (validateResourceFilter_iff_disallowed _ ⟨[⟨"resource", ["comment"]⟩]⟩).2.2.2.2 _ _ _ rfl
      (by decide)⟩

/-- Claim C12. `validateFilterLimits` returns an error if and only if some filter
has more than 50 values (`MaxFilterValuesPerField = 50`); filters with at most
50 values, so with exactly 50, are accepted; the message names the first
offending field, the maximum 50 and the number of values supplied. -/
theorem validateFilterLimits_iff_over_fifty (r : MetricResource) (filters : FilterSet) :
    MaxFilterValuesPerField = 50 ∧
    (r.validateFilterLimits filters ≠ none ↔ ∃ f ∈ filters.Filters, 50 < f.Values.length) ∧
    ((∀ f ∈ filters.Filters, f.Values.length = 50) → r.validateFilterLimits filters = none) ∧
    (∀ (pre post : List Filter) (f : Filter), filters.Filters = pre ++ f :: post →
      (∀ g ∈ pre, g.Values.length ≤ 50) → 50 < f.Values.length →
      r.validateFilterLimits filters =
        some ("too many filter values for field \x27" ++ f.Field ++ "\x27 (max: " ++
          fmt.intD 50 ++ ", got: " ++ fmt.intD f.Values.length ++ ")")) := by
  refine ⟨rfl, ?_, ?_, ?_⟩
  · unfold MetricResource.validateFilterLimits
    rw [ne_eq, validateFilterLimitsLoop_eq_none_iff]
    constructor
    · intro h
      by_contra hno
      apply h
      intro f hf
      by_contra hlt
      exact hno ⟨f, hf, by omega⟩
    · rintro ⟨f, hf, hlt⟩ h
      have := h f hf
      omega
  · intro h
    unfold MetricResource.validateFilterLimits
    rw [validateFilterLimitsLoop_eq_none_iff]
    intro f hf
    rw [h f hf]
  · intro pre post f hfs hpre hlt
    unfold MetricResource.validateFilterLimits
    rw [hfs, validateFilterLimitsLoop_first pre post f hpre hlt]

/-- Claim C12, witness. A filter with exactly 50 values is accepted; with a
second filter of 51 values the error names that field, 50 and 51. -/
theorem validateFilterLimits_iff_over_fifty_witness :
    (⟨1, DefaultConfig, 50, 200⟩ : MetricResource).validateFilterLimits
        ⟨[⟨"key", List.replicate 50 "a"⟩]⟩ = none ∧
    (⟨1, DefaultConfig, 50, 200⟩ : MetricResource).validateFilterLimits
        ⟨[⟨"key", List.replicate 50 "a"⟩, ⟨"value", List.replicate 51 "1"⟩]⟩
      = some "too many filter values for field \x27value\x27 (max: 50, got: 51)" :=
  ⟨(validateFilterLimits_iff_over_fifty _ _).2.2.1 (by decide),
   ((validateFilterLimits_iff_over_fifty _ _).2.2.2 [⟨"key", List.replicate 50 "a"⟩] []
      ⟨"value", List.replicate 51 "1"⟩ rfl (by decide) (by decide)).trans (by decide)⟩

/-! ## Handlers -/

/-- On success `CreateMetricRequest.Validate` leaves the request with the trimmed
key and the other fields as they were. -/
theorem validate_ok_fields (r : CreateMetricRequest) (config : Config)
    (h : (r.Validate config).2 = none) :
    (r.Validate config).1.Key = strings.TrimSpace r.Key ∧
    (r.Validate config).1.Resource = r.Resource ∧
    (r.Validate config).1.ResourceId = r.ResourceId ∧
    (r.Validate config).1.Value = r.Value := by
  by_cases h1 : r.Resource ∈ config.AllowedTypes
  · cases h2 : uuid.ParseOk r.ResourceId with
    | false =>
      rw [(createValidate_early_checks r config).2 h1 h2] at h
      exact absurd h (by simp)
    | true =>
      rw [createValidate_after_uuid r config h1 h2] at h ⊢
      split_ifs at h ⊢
      exact ⟨rfl, rfl, rfl, rfl⟩
  · rw [(createValidate_early_checks r config).1 h1] at h
    exact absurd h (by simp)

/-- Claim C13. For an id whose record exists and a payload that passes
`UpdateMetricRequest.Validate`, the `Update` handler reads the record and hands
to storage one record, equal to the fetched record with only `Value` replaced by
the payload's value (id, resource, resourceId, key and createdAt are those of the
fetched record); that record is the body of the 200 response when storage
accepts it, and a storage failure yields 500 with the underlying message. -/
theorem update_replaces_value_only (r : MetricResource) (crud : CRUD) (id : String)
    (req : UpdateMetricRequest) (existing : Metric)
    (hv : req.Validate r.Config = none) (hg : crud.GetByID id = Except.ok existing) :
    ∃ item : Metric,
      (r.Update crud id (some req)).2 = [StorageCall.getByID id, StorageCall.update id item] ∧
      item.Value = req.Value ∧
      item.Id = existing.Id ∧ item.Resource = existing.Resource ∧
      item.ResourceId = existing.ResourceId ∧ item.Key = existing.Key ∧
      item.CreatedAt = existing.CreatedAt ∧
      (crud.Update id item = none → (r.Update crud id (some req)).1 = ⟨200, Body.item item⟩) ∧
      (∀ err, crud.Update id item = some err →
        (r.Update crud id (some req)).1 = ⟨500, Body.error err⟩) := by
  refine ⟨{ existing with Value := req.Value }, ?_, rfl, rfl, rfl, rfl, rfl, rfl, ?_, ?_⟩
  · unfold MetricResource.Update
    simp only [hv, hg]
    cases crud.Update id { existing with Value := req.Value } <;> rfl
  · intro hu
    unfold MetricResource.Update
    simp only [hv, hg, hu]
  · intro err hu
    unfold MetricResource.Update
    simp only [hv, hg, hu]

/-- Claim C13, witness. Updating the value of a stored record to 42. -/
theorem update_replaces_value_only_witness :
    ∃ item : Metric,
      ((⟨1, DefaultConfig, 50, 200⟩ : MetricResource).Update
          ⟨fun _ => none,
            fun id => Except.ok ⟨id, "post", "123e4567-e89b-12d3-a456-426614174000", "views", 10,
              some 1700000000⟩,
            fun _ _ => none, fun _ => none, fun _ => Except.ok ⟨[], 0⟩⟩
          "m1" (some ⟨42⟩)).2 = [StorageCall.getByID "m1", StorageCall.update "m1" item] ∧
      item.Value = 42 ∧ item.Id = "m1" ∧ item.Resource = "post" ∧
      item.ResourceId = "123e4567-e89b-12d3-a456-426614174000" ∧ item.Key = "views" ∧
      item.CreatedAt = some 1700000000 := by
  obtain ⟨item, h1, h2, h3, h4, h5, h6, h7, _⟩ :=
    update_replaces_value_only ⟨1, DefaultConfig, 50, 200⟩
      ⟨fun _ => none,
        fun id => Except.ok ⟨id, "post", "123e4567-e89b-12d3-a456-426614174000", "views", 10,
          some 1700000000⟩,
        fun _ _ => none, fun _ => none, fun _ => Except.ok ⟨[], 0⟩⟩
      "m1" ⟨42⟩ ⟨"m1", "post", "123e4567-e89b-12d3-a456-426614174000", "views", 10,
        some 1700000000⟩ (by decide) rfl
  exact ⟨item, h1, h2, h3, h4, h5, h6, h7⟩

/-- Claim C14. The `Create` handler answers 400 when the body is unparsable or
`CreateMetricRequest.Validate` fails, without any storage call; otherwise 500
with the underlying message when the insert fails; otherwise 201 whether or not
the follow-up read succeeds: the read record when it succeeds, and when it fails
the locally built record, which carries the fresh id and the request's resource,
resourceId, trimmed key and value. -/
theorem create_status_cases (r : MetricResource) (crud : CRUD) (newId : String) :
    (r.Create crud none newId = (⟨400, Body.error "Invalid request body"⟩, [])) ∧
    (∀ (req : CreateMetricRequest) (err : String), (req.Validate r.Config).2 = some err →
      r.Create crud (some req) newId = (⟨400, Body.error err⟩, [])) ∧
    (∀ req : CreateMetricRequest, (req.Validate r.Config).2 = none →
      ∃ item : Metric,
        item.Id = newId ∧ item.Resource = req.Resource ∧ item.ResourceId = req.ResourceId ∧
        item.Key = strings.TrimSpace req.Key ∧ item.Value = req.Value ∧
        item.CreatedAt = none ∧
        (∀ err, crud.Create item = some err →
          r.Create crud (some req) newId = (⟨500, Body.error err⟩, [StorageCall.create item])) ∧
        (∀ err, crud.Create item = none → crud.GetByID newId = Except.error err →
          r.Create crud (some req) newId =
            (⟨201, Body.item item⟩, [StorageCall.create item, StorageCall.getByID newId])) ∧
        (∀ created, crud.Create item = none → crud.GetByID newId = Except.ok created →
          r.Create crud (some req) newId =
            (⟨201, Body.item created⟩,
              [StorageCall.create item, StorageCall.getByID newId]))) := by
  refine ⟨rfl, ?_, ?_⟩
  · intro req err h
    unfold MetricResource.Create
    cases hr : req.Validate r.Config with
    | mk req2 e =>
      rw [hr] at h
      simp only at h
      subst h
      simp only [hr]
  · intro req h
    have hkey := validate_ok_fields req r.Config h
    cases hr : req.Validate r.Config with
    | mk req2 e =>
      rw [hr] at h hkey
      simp only at h hkey
      subst h
      obtain ⟨k1, k2, k3, k4⟩ := hkey
      refine ⟨⟨newId, req2.Resource, req2.ResourceId, req2.Key, req2.Value, none⟩,
        rfl, k2, k3, k1, k4, rfl, ?_, ?_, ?_⟩
      · intro err hc
        unfold MetricResource.Create
        simp only [hr, hc]
      · intro err hc hg
        unfold MetricResource.Create
        simp only [hr, hc, hg]
      · intro created hc hg
        unfold MetricResource.Create
        simp only [hr, hc, hg]

/-- Claim C14, witness. With storage whose insert succeeds and whose read
fails, a valid request is answered 201 with the locally built record (key
trimmed); a request with a blank key is answered 400 without a storage call. -/
theorem create_status_cases_witness :
    (⟨1, DefaultConfig, 50, 200⟩ : MetricResource).Create
        ⟨fun _ => none, fun _ => Except.error "no rows", fun _ _ => none, fun _ => none,
          fun _ => Except.ok ⟨[], 0⟩⟩
        (some ⟨"post", "123e4567-e89b-12d3-a456-426614174000", " views ", 10⟩) "m1"
      = (⟨201, Body.item ⟨"m1", "post", "123e4567-e89b-12d3-a456-426614174000", "views", 10,
            none⟩⟩,
          [StorageCall.create
              ⟨"m1", "post", "123e4567-e89b-12d3-a456-426614174000", "views", 10, none⟩,
            StorageCall.getByID "m1"]) ∧
    (⟨1, DefaultConfig, 50, 200⟩ : MetricResource).Create
        ⟨fun _ => none, fun _ => Except.error "no rows", fun _ _ => none, fun _ => none,
          fun _ => Except.ok ⟨[], 0⟩⟩
        (some ⟨"post", "123e4567-e89b-12d3-a456-426614174000", "   ", 10⟩) "m1"
      = (⟨400, Body.error "key cannot be empty"⟩, []) := by
  constructor
  · obtain ⟨item, h1, h2, h3, h4, h5, h6, _, hread, _⟩ :=
      (create_status_cases ⟨1, DefaultConfig, 50, 200⟩
        ⟨fun _ => none, fun _ => Except.error "no rows", fun _ _ => none, fun _ => none,
          fun _ => Except.ok ⟨[], 0⟩⟩ "m1").2.2
        ⟨"post", "123e4567-e89b-12d3-a456-426614174000", " views ", 10⟩ (by decide)
    have hitem : item
        = ⟨"m1", "post", "123e4567-e89b-12d3-a456-426614174000", "views", 10, none⟩ := by
      cases item with
      | mk a b c d e f =>
        simp only at h1 h2 h3 h4 h5 h6
        rw [h1, h2, h3, h4, h5, h6]
        decide
    rw [← hitem]
    exact hread "no rows" rfl rfl
  · exact (create_status_cases ⟨1, DefaultConfig, 50, 200⟩ _ "m1").2.1 _ _ (by decide)

/-- Claim C15. `DefaultConfig()` has `allowedTypes = ["post"]`,
`maxKeyLength = 255`, `onlyPositiveValues = false`, `paginationLimit = 50`,
`maxPaginationLimit = 200`, and `Config.Validate` returns no error on it. -/
theorem defaultConfig_values_and_valid :
    DefaultConfig.AllowedTypes = ["post"] ∧
    DefaultConfig.MaxKeyLength = 255 ∧
    DefaultConfig.OnlyPositiveValues = false ∧
    DefaultConfig.PaginationLimit = 50 ∧
    DefaultConfig.MaxPaginationLimit = 200 ∧
    DefaultConfig.Validate = none := by
  refine ⟨rfl, rfl, rfl, rfl, rfl, ?_⟩
  rw [validate_of_typesOk DefaultConfig ⟨by decide, by decide, by decide⟩]
  decide

/-- Claim C16, the code at the failing field. Of the six fields of `Metric`, five
carry a `db` tag equal to the column that the field mapping of `List` gives for
their JSON name, a column declared by the table schema in every dialect.  The
field `Key` does not: its `db` tag is `name`, whereas the mapping sends `key` to
the column `key`, and no dialect of the schema declares a column `name`. -/
theorem metric_key_column_mismatch :
    (Metric.fieldTags.filter fun t => decide (fieldMapping.lookup t.json ≠ some t.db))
      = [⟨"Key", "key", "name"⟩] ∧
    fieldMapping.lookup "key" = some "key" ∧
    "key" ∈ migrations.postgresColumns ∧ "key" ∈ migrations.mysqlColumns ∧
    "key" ∈ migrations.sqliteColumns ∧
    "name" ∉ migrations.postgresColumns ∧ "name" ∉ migrations.mysqlColumns ∧
    "name" ∉ migrations.sqliteColumns ∧
    (∀ t ∈ Metric.fieldTags, t.goName ≠ "Key" →
      fieldMapping.lookup t.json = some t.db ∧ t.db ∈ migrations.postgresColumns ∧
      t.db ∈ migrations.mysqlColumns ∧ t.db ∈ migrations.sqliteColumns) ∧
    Metric.TableName = migrations.tableName := by
  decide

end Metrics
